import Mathlib

/-!
UFS host controller driver header (`drivers/scsi/ufs/ufshcd.h`)

A shallow embedding of the inline functions and macros of `ufshcd.h`, and
theorems about them.

Conventions of the embedding:

* C `enum`s that the header declares with their values are numbers (`Nat`) with
  one named constant per enumerator, as in C.
* `u32` values are `Nat`s; where the C code truncates, the model reduces
  modulo `2 ^ 32` (or `2 ^ 8` for `u8`).
* `struct ufs_hba` is a Lean structure that is passed explicitly; a C function
  that writes through `hba` returns the new `ufs_hba`.
* The register window behind `hba->mmio_base` is a map from register offset to
  register contents.
* `hba->vops` is a nullable pointer: `Option Nat`, an address that a table of
  variant operations (`Nat → ufs_hba_variant_ops`) resolves. Every hook of the
  table is a nullable function pointer, an `Option` of a state transformer.
-/

namespace Ufshcd

/-! ## Enumerations -/

/-- Values of `enum uic_link_state` (Host <-> Device UniPro link state). -/
def UIC_LINK_OFF_STATE : Nat := 0
/-- Link is in Fast/Slow/Sleep state. -/
def UIC_LINK_ACTIVE_STATE : Nat := 1
/-- Link is in Hibernate state. -/
def UIC_LINK_HIBERN8_STATE : Nat := 2
/-- Link is in broken state. -/
def UIC_LINK_BROKEN_STATE : Nat := 3

/-- Modelled from the spec: `enum ufs_dev_pwr_mode` is declared in `ufs.h`, which is
not part of the sources at hand; the spec gives DevicePowerMode as the enum
{Active, Sleep, PowerDown}. -/
inductive ufs_dev_pwr_mode where
  | UFS_ACTIVE_PWR_MODE
  | UFS_SLEEP_PWR_MODE
  | UFS_POWERDOWN_PWR_MODE
  deriving DecidableEq

open ufs_dev_pwr_mode

/-- Values of `enum ufs_pm_op`. -/
def UFS_RUNTIME_PM : Nat := 0
/-- System power management. -/
def UFS_SYSTEM_PM : Nat := 1
/-- Shutdown power management. -/
def UFS_SHUTDOWN_PM : Nat := 2

/-- Values of `enum ufs_pm_level`: each level is in increasing order of power savings. -/
def UFS_PM_LVL_0 : Nat := 0
/-- Level 1. -/
def UFS_PM_LVL_1 : Nat := 1
/-- Level 2. -/
def UFS_PM_LVL_2 : Nat := 2
/-- Level 3. -/
def UFS_PM_LVL_3 : Nat := 3
/-- Level 4. -/
def UFS_PM_LVL_4 : Nat := 4
/-- Level 5. -/
def UFS_PM_LVL_5 : Nat := 5
/-- Number of levels. -/
def UFS_PM_LVL_MAX : Nat := 6

/-- Values of `enum ufs_notify_change_status`. -/
def PRE_CHANGE : Nat := 0
/-- After the change. -/
def POST_CHANGE : Nat := 1

/-- Clocks are on. -/
def CLKS_ON : Nat := 1
/-- Length of every error history. -/
def UFS_ERR_REG_HIST_LENGTH : Nat := 8

/-! ## Structures -/

/-- The `struct ufs_pm_lvl_states`: a device power mode and a link state. (The table of the
same name is `ufs_pm_lvl_states` below, so the structure is named in the singular.) -/
structure ufs_pm_lvl_state where
  dev_state : ufs_dev_pwr_mode
  link_state : Nat
  deriving DecidableEq

/-- The `struct ufs_pa_layer_attr`. -/
structure ufs_pa_layer_attr where
  gear_rx : Nat
  gear_tx : Nat
  lane_rx : Nat
  lane_tx : Nat
  pwr_rx : Nat
  pwr_tx : Nat
  hs_rate : Nat
  deriving DecidableEq

/-- The `struct ufs_pwr_mode_info`. -/
structure ufs_pwr_mode_info where
  is_valid : Bool
  info : ufs_pa_layer_attr
  deriving DecidableEq

/-- The `struct ufs_err_reg_hist`: a cyclic buffer of register values and time stamps. -/
structure ufs_err_reg_hist where
  pos : Int
  reg : List Nat
  tstamp : List Int
  deriving DecidableEq

/-- The `struct ufs_stats` (without the vendor-only fields). -/
structure ufs_stats where
  last_intr_status : Nat
  last_intr_ts : Int
  hibern8_exit_cnt : Nat
  last_hibern8_exit_tstamp : Int
  pa_err : ufs_err_reg_hist
  dl_err : ufs_err_reg_hist
  nl_err : ufs_err_reg_hist
  tl_err : ufs_err_reg_hist
  dme_err : ufs_err_reg_hist
  auto_hibern8_err : ufs_err_reg_hist
  fatal_err : ufs_err_reg_hist
  link_startup_err : ufs_err_reg_hist
  resume_err : ufs_err_reg_hist
  suspend_err : ufs_err_reg_hist
  dev_reset : ufs_err_reg_hist
  host_reset : ufs_err_reg_hist
  task_abort : ufs_err_reg_hist
  deriving DecidableEq

/-- The scalar fields of `struct ufs_clk_gating`. -/
structure ufs_clk_gating where
  state : Nat
  delay_ms : Nat
  is_suspended : Bool
  is_enabled : Bool
  active_reqs : Int
  deriving DecidableEq

/-- The `struct ufs_hba`, the per adapter private structure: the fields the inline
functions of the header read or write, and the bookkeeping fields next to them.
`mmio_base` stands for the register window it points to. -/
structure ufs_hba where
  mmio_base : Nat → Nat
  curr_dev_pwr_mode : ufs_dev_pwr_mode
  uic_link_state : Nat
  rpm_lvl : Nat
  spm_lvl : Nat
  pm_op_in_progress : Int
  ahit : Nat
  lrb_in_use : Nat
  outstanding_tasks : Nat
  outstanding_reqs : Nat
  capabilities : Nat
  nutrs : Int
  nutmrs : Int
  ufs_version : Nat
  vops : Option Nat
  priv : Option Nat
  quirks : Nat
  dev_quirks : Nat
  tm_condition : Nat
  tm_slots_in_use : Nat
  active_uic_cmd : Option Nat
  ufshcd_state : Nat
  eh_flags : Nat
  intr_mask : Nat
  is_powered : Bool
  errors : Nat
  uic_error : Nat
  saved_err : Nat
  saved_uic_err : Nat
  ufs_stats : ufs_stats
  force_reset : Bool
  auto_bkops_enabled : Bool
  req_abort_count : Int
  lanes_per_direction : Nat
  pwr_info : ufs_pa_layer_attr
  max_pwr_info : ufs_pwr_mode_info
  clk_gating : ufs_clk_gating
  caps : Nat
  is_sys_suspended : Bool
  wb_buf_flush_enabled : Bool
  wb_enabled : Bool

/-- The `struct ufs_hba_variant_ops`, the variant specific callbacks. A hook gets the
`hba` and returns the `hba` it leaves behind, with its return value when it has one.
The two `ufs_pa_layer_attr` pointers of `pwr_change_notify` are passed as the structures
they point to and handed back; pointers to types the header does not declare
(`config_scaling_param`, `program_key`) are addresses. -/
structure ufs_hba_variant_ops where
  name : String
  init : Option (ufs_hba → ufs_hba × Int)
  exit : Option (ufs_hba → ufs_hba)
  get_ufs_hci_version : Option (ufs_hba → ufs_hba × Nat)
  clk_scale_notify : Option (ufs_hba → Bool → Nat → ufs_hba × Int)
  setup_clocks : Option (ufs_hba → Bool → Nat → ufs_hba × Int)
  setup_regulators : Option (ufs_hba → Bool → ufs_hba × Int)
  hce_enable_notify : Option (ufs_hba → Nat → ufs_hba × Int)
  link_startup_notify : Option (ufs_hba → Nat → ufs_hba × Int)
  pwr_change_notify : Option (ufs_hba → Nat → ufs_pa_layer_attr → ufs_pa_layer_attr →
    ufs_hba × ufs_pa_layer_attr × ufs_pa_layer_attr × Int)
  setup_xfer_req : Option (ufs_hba → Int → Bool → ufs_hba)
  compl_xfer_req : Option (ufs_hba → Int → Bool → ufs_hba)
  setup_task_mgmt : Option (ufs_hba → Int → Nat → ufs_hba)
  hibern8_notify : Option (ufs_hba → Nat → Nat → ufs_hba)
  apply_dev_quirks : Option (ufs_hba → ufs_hba × Int)
  fixup_dev_quirks : Option (ufs_hba → ufs_hba)
  suspend : Option (ufs_hba → Nat → ufs_hba × Int)
  resume : Option (ufs_hba → Nat → ufs_hba × Int)
  dbg_register_dump : Option (ufs_hba → ufs_hba)
  phy_initialization : Option (ufs_hba → ufs_hba × Int)
  device_reset : Option (ufs_hba → ufs_hba)
  program_key : Option (ufs_hba → Nat → Int → ufs_hba × Int)
  config_scaling_param : Option (ufs_hba → Nat → Nat → ufs_hba)

/-! ## Link state and device power mode macros -/

/-- The macro `ufshcd_is_link_off(hba)`. -/
def ufshcd_is_link_off (hba : ufs_hba) : Bool := hba.uic_link_state == UIC_LINK_OFF_STATE
/-- The macro `ufshcd_is_link_active(hba)`. -/
def ufshcd_is_link_active (hba : ufs_hba) : Bool := hba.uic_link_state == UIC_LINK_ACTIVE_STATE
/-- The macro `ufshcd_is_link_hibern8(hba)`. -/
def ufshcd_is_link_hibern8 (hba : ufs_hba) : Bool := hba.uic_link_state == UIC_LINK_HIBERN8_STATE
/-- The macro `ufshcd_is_link_broken(hba)`. -/
def ufshcd_is_link_broken (hba : ufs_hba) : Bool := hba.uic_link_state == UIC_LINK_BROKEN_STATE

/-- The macro `ufshcd_set_link_off(hba)`. -/
def ufshcd_set_link_off (hba : ufs_hba) : ufs_hba :=
  { hba with uic_link_state := UIC_LINK_OFF_STATE }
/-- The macro `ufshcd_set_link_active(hba)`. -/
def ufshcd_set_link_active (hba : ufs_hba) : ufs_hba :=
  { hba with uic_link_state := UIC_LINK_ACTIVE_STATE }
/-- The macro `ufshcd_set_link_hibern8(hba)`. -/
def ufshcd_set_link_hibern8 (hba : ufs_hba) : ufs_hba :=
  { hba with uic_link_state := UIC_LINK_HIBERN8_STATE }
/-- The macro `ufshcd_set_link_broken(hba)`. -/
def ufshcd_set_link_broken (hba : ufs_hba) : ufs_hba :=
  { hba with uic_link_state := UIC_LINK_BROKEN_STATE }

/-- The macro `ufshcd_set_ufs_dev_active(h)`. -/
def ufshcd_set_ufs_dev_active (h : ufs_hba) : ufs_hba :=
  { h with curr_dev_pwr_mode := UFS_ACTIVE_PWR_MODE }
/-- The macro `ufshcd_set_ufs_dev_sleep(h)`. -/
def ufshcd_set_ufs_dev_sleep (h : ufs_hba) : ufs_hba :=
  { h with curr_dev_pwr_mode := UFS_SLEEP_PWR_MODE }
/-- The macro `ufshcd_set_ufs_dev_poweroff(h)`. -/
def ufshcd_set_ufs_dev_poweroff (h : ufs_hba) : ufs_hba :=
  { h with curr_dev_pwr_mode := UFS_POWERDOWN_PWR_MODE }
/-- The macro `ufshcd_is_ufs_dev_active(h)`. -/
def ufshcd_is_ufs_dev_active (h : ufs_hba) : Bool := h.curr_dev_pwr_mode == UFS_ACTIVE_PWR_MODE
/-- The macro `ufshcd_is_ufs_dev_sleep(h)`. -/
def ufshcd_is_ufs_dev_sleep (h : ufs_hba) : Bool := h.curr_dev_pwr_mode == UFS_SLEEP_PWR_MODE
/-- The macro `ufshcd_is_ufs_dev_poweroff(h)`. -/
def ufshcd_is_ufs_dev_poweroff (h : ufs_hba) : Bool :=
  h.curr_dev_pwr_mode == UFS_POWERDOWN_PWR_MODE

/-! ## Capabilities and registers -/

/-- Capability bit: allow the WriteBooster to be turned on. -/
def UFSHCD_CAP_WB_EN : Nat := 1 <<< 8

/-- The C function `ufshcd_is_wb_allowed`: the `u32` value `caps & UFSHCD_CAP_WB_EN`
converted to `bool`, which is true exactly when the value is not zero. -/
def ufshcd_is_wb_allowed (hba : ufs_hba) : Bool := (hba.caps &&& UFSHCD_CAP_WB_EN) != 0

/-- The macro `ufshcd_readl(hba, reg)`: the 32-bit contents of register `reg`. -/
def ufshcd_readl (hba : ufs_hba) (reg : Nat) : Nat := hba.mmio_base reg % 2 ^ 32

/-- The macro `ufshcd_writel(hba, val, reg)`: stores the 32-bit `val` in register `reg`. -/
def ufshcd_writel (hba : ufs_hba) (val reg : Nat) : ufs_hba :=
  { hba with mmio_base := Function.update hba.mmio_base reg (val % 2 ^ 32) }

/-- The C function `ufshcd_rmwl`: read modify write into a register. `~mask` on a `u32`
is the exclusive or with `0xFFFFFFFF`. -/
def ufshcd_rmwl (hba : ufs_hba) (mask val reg : Nat) : ufs_hba :=
  let tmp := ufshcd_readl hba reg
  let tmp := tmp &&& (0xFFFFFFFF ^^^ (mask % 2 ^ 32))
  let tmp := tmp ||| ((val % 2 ^ 32) &&& (mask % 2 ^ 32))
  ufshcd_writel hba tmp reg

/-- Modelled from the spec: `ufshcd_update_reg_hist` is only declared in the header, its
body is not part of the sources at hand. Per the spec an error history is a ring buffer of
8 (register snapshot, timestamp) entries, append-only, the oldest entry overwritten: the
call stores `reg` and the current time `now` at `pos` and advances `pos` by one modulo
`UFS_ERR_REG_HIST_LENGTH`. -/
def ufshcd_update_reg_hist (now : Int) (reg_hist : ufs_err_reg_hist) (reg : Nat) :
    ufs_err_reg_hist :=
  { pos := (reg_hist.pos + 1) % (UFS_ERR_REG_HIST_LENGTH : Int)
    reg := reg_hist.reg.set reg_hist.pos.toNat (reg % 2 ^ 32)
    tstamp := reg_hist.tstamp.set reg_hist.pos.toNat now }

/-! ## Wrapper functions for safely calling variant operations -/

/-- The test `hba->vops && hba->vops->hook` of every wrapper: the hook to call, when the
table and the hook are both there. `vt` resolves the address in `hba->vops`. -/
def vops_hook {α : Type} (vt : Nat → ufs_hba_variant_ops) (hba : ufs_hba)
    (hook : ufs_hba_variant_ops → Option α) : Option α :=
  match hba.vops with
  | none => none
  | some p => hook (vt p)

/-- The C function `ufshcd_vops_init`. -/
def ufshcd_vops_init (vt : Nat → ufs_hba_variant_ops) (hba : ufs_hba) : ufs_hba × Int :=
  match vops_hook vt hba (fun v => v.init) with
  | some f => f hba
  | none => (hba, 0)

/-- The C function `ufshcd_vops_exit`. -/
def ufshcd_vops_exit (vt : Nat → ufs_hba_variant_ops) (hba : ufs_hba) : ufs_hba :=
  match vops_hook vt hba (fun v => v.exit) with
  | some f => f hba
  | none => hba

/-- The C function `ufshcd_vops_clk_scale_notify`. -/
def ufshcd_vops_clk_scale_notify (vt : Nat → ufs_hba_variant_ops) (hba : ufs_hba)
    (up : Bool) (status : Nat) : ufs_hba × Int :=
  match vops_hook vt hba (fun v => v.clk_scale_notify) with
  | some f => f hba up status
  | none => (hba, 0)

/-- The C function `ufshcd_vops_setup_clocks`. -/
def ufshcd_vops_setup_clocks (vt : Nat → ufs_hba_variant_ops) (hba : ufs_hba)
    (on_ : Bool) (status : Nat) : ufs_hba × Int :=
  match vops_hook vt hba (fun v => v.setup_clocks) with
  | some f => f hba on_ status
  | none => (hba, 0)

/-- The C function `ufshcd_vops_setup_regulators`. -/
def ufshcd_vops_setup_regulators (vt : Nat → ufs_hba_variant_ops) (hba : ufs_hba)
    (status : Bool) : ufs_hba × Int :=
  match vops_hook vt hba (fun v => v.setup_regulators) with
  | some f => f hba status
  | none => (hba, 0)

/-- The C function `ufshcd_vops_hce_enable_notify`; the `bool status` is converted to the
`enum ufs_notify_change_status` parameter of the hook (`false` is 0, `true` is 1). -/
def ufshcd_vops_hce_enable_notify (vt : Nat → ufs_hba_variant_ops) (hba : ufs_hba)
    (status : Bool) : ufs_hba × Int :=
  match vops_hook vt hba (fun v => v.hce_enable_notify) with
  | some f => f hba status.toNat
  | none => (hba, 0)

/-- The C function `ufshcd_vops_link_startup_notify`; `status` is converted as in
`ufshcd_vops_hce_enable_notify`. -/
def ufshcd_vops_link_startup_notify (vt : Nat → ufs_hba_variant_ops) (hba : ufs_hba)
    (status : Bool) : ufs_hba × Int :=
  match vops_hook vt hba (fun v => v.link_startup_notify) with
  | some f => f hba status.toNat
  | none => (hba, 0)

/-- The C function `ufshcd_vops_pwr_change_notify`. `ENOTSUPP` is the errno constant of
`include/linux/errno.h`, which the header does not declare; it is a parameter. -/
def ufshcd_vops_pwr_change_notify (ENOTSUPP : Int) (vt : Nat → ufs_hba_variant_ops)
    (hba : ufs_hba) (status : Bool) (dev_max_params dev_req_params : ufs_pa_layer_attr) :
    ufs_hba × ufs_pa_layer_attr × ufs_pa_layer_attr × Int :=
  match vops_hook vt hba (fun v => v.pwr_change_notify) with
  | some f => f hba status.toNat dev_max_params dev_req_params
  | none => (hba, dev_max_params, dev_req_params, -ENOTSUPP)

/-- The C function `ufshcd_vops_setup_xfer_req`. -/
def ufshcd_vops_setup_xfer_req (vt : Nat → ufs_hba_variant_ops) (hba : ufs_hba)
    (tag : Int) (is_scsi_cmd : Bool) : ufs_hba :=
  match vops_hook vt hba (fun v => v.setup_xfer_req) with
  | some f => f hba tag is_scsi_cmd
  | none => hba

/-- The C function `ufshcd_vops_compl_xfer_req`. -/
def ufshcd_vops_compl_xfer_req (vt : Nat → ufs_hba_variant_ops) (hba : ufs_hba)
    (tag : Int) (is_scsi : Bool) : ufs_hba :=
  match vops_hook vt hba (fun v => v.compl_xfer_req) with
  | some f => f hba tag is_scsi
  | none => hba

/-- The C function `ufshcd_vops_setup_task_mgmt`. -/
def ufshcd_vops_setup_task_mgmt (vt : Nat → ufs_hba_variant_ops) (hba : ufs_hba)
    (tag : Int) (tm_function : Nat) : ufs_hba :=
  match vops_hook vt hba (fun v => v.setup_task_mgmt) with
  | some f => f hba tag tm_function
  | none => hba

/-- The C function `ufshcd_vops_hibern8_notify`. -/
def ufshcd_vops_hibern8_notify (vt : Nat → ufs_hba_variant_ops) (hba : ufs_hba)
    (cmd status : Nat) : ufs_hba :=
  match vops_hook vt hba (fun v => v.hibern8_notify) with
  | some f => f hba cmd status
  | none => hba

/-- The C function `ufshcd_vops_apply_dev_quirks`. -/
def ufshcd_vops_apply_dev_quirks (vt : Nat → ufs_hba_variant_ops) (hba : ufs_hba) :
    ufs_hba × Int :=
  match vops_hook vt hba (fun v => v.apply_dev_quirks) with
  | some f => f hba
  | none => (hba, 0)

/-- The C function `ufshcd_vops_fixup_dev_quirks`. -/
def ufshcd_vops_fixup_dev_quirks (vt : Nat → ufs_hba_variant_ops) (hba : ufs_hba) : ufs_hba :=
  match vops_hook vt hba (fun v => v.fixup_dev_quirks) with
  | some f => f hba
  | none => hba

/-- The C function `ufshcd_vops_suspend`. -/
def ufshcd_vops_suspend (vt : Nat → ufs_hba_variant_ops) (hba : ufs_hba) (op : Nat) :
    ufs_hba × Int :=
  match vops_hook vt hba (fun v => v.suspend) with
  | some f => f hba op
  | none => (hba, 0)

/-- The C function `ufshcd_vops_resume`. -/
def ufshcd_vops_resume (vt : Nat → ufs_hba_variant_ops) (hba : ufs_hba) (op : Nat) :
    ufs_hba × Int :=
  match vops_hook vt hba (fun v => v.resume) with
  | some f => f hba op
  | none => (hba, 0)

/-- The C function `ufshcd_vops_dbg_register_dump`. -/
def ufshcd_vops_dbg_register_dump (vt : Nat → ufs_hba_variant_ops) (hba : ufs_hba) : ufs_hba :=
  match vops_hook vt hba (fun v => v.dbg_register_dump) with
  | some f => f hba
  | none => hba

/-- The C function `ufshcd_vops_device_reset`; `now` is the time `ufshcd_update_reg_hist`
stamps the entry with. -/
def ufshcd_vops_device_reset (now : Int) (vt : Nat → ufs_hba_variant_ops) (hba : ufs_hba) :
    ufs_hba :=
  match vops_hook vt hba (fun v => v.device_reset) with
  | some f =>
    let hba := f hba
    let hba := ufshcd_set_ufs_dev_active hba
    let hba := if ufshcd_is_wb_allowed hba then
        { hba with wb_enabled := false, wb_buf_flush_enabled := false }
      else hba
    { hba with ufs_stats :=
        { hba.ufs_stats with dev_reset := ufshcd_update_reg_hist now hba.ufs_stats.dev_reset 0 } }
  | none => hba

/-- The C function `ufshcd_vops_config_scaling_param`. -/
def ufshcd_vops_config_scaling_param (vt : Nat → ufs_hba_variant_ops) (hba : ufs_hba)
    (profile data : Nat) : ufs_hba :=
  match vops_hook vt hba (fun v => v.config_scaling_param) with
  | some f => f hba profile data
  | none => hba

/-! ## Power management levels -/

/-- Modelled from the spec: the table `ufs_pm_lvl_states[]` is only declared (`extern`) in
the header, its initialiser is not part of the sources at hand. The spec lists the legal
(device-power, link-state) pairs in order of increasing power savings: fully active, active
device/hibernate link, sleeping device/active link, sleeping device/hibernate link,
powered-down device/hibernate link, powered-down device/link off; the comments on
`enum ufs_pm_level` in the header name the same pair for each level. -/
def ufs_pm_lvl_states : List ufs_pm_lvl_state :=
  [ { dev_state := UFS_ACTIVE_PWR_MODE, link_state := UIC_LINK_ACTIVE_STATE },
    { dev_state := UFS_ACTIVE_PWR_MODE, link_state := UIC_LINK_HIBERN8_STATE },
    { dev_state := UFS_SLEEP_PWR_MODE, link_state := UIC_LINK_ACTIVE_STATE },
    { dev_state := UFS_SLEEP_PWR_MODE, link_state := UIC_LINK_HIBERN8_STATE },
    { dev_state := UFS_POWERDOWN_PWR_MODE, link_state := UIC_LINK_HIBERN8_STATE },
    { dev_state := UFS_POWERDOWN_PWR_MODE, link_state := UIC_LINK_OFF_STATE } ]

/-- Rank of a device power mode in the order of power savings:
Active < Sleep < PowerDown. -/
def dev_pwr_rank : ufs_dev_pwr_mode → Nat
  | UFS_ACTIVE_PWR_MODE => 0
  | UFS_SLEEP_PWR_MODE => 1
  | UFS_POWERDOWN_PWR_MODE => 2

/-- Rank of a link state in the order of power savings: Active < Hibern8 < Off. The
broken state, and a number that is no link state, have no rank. -/
def link_rank (s : Nat) : Option Nat :=
  if s = UIC_LINK_ACTIVE_STATE then some 0
  else if s = UIC_LINK_HIBERN8_STATE then some 1
  else if s = UIC_LINK_OFF_STATE then some 2
  else none

/-- The strict lexicographic order on (device power mode, link state) pairs: the device
power mode is compared first, the link state second. -/
def pm_lvl_lt (a b : ufs_pm_lvl_state) : Bool :=
  match link_rank a.link_state, link_rank b.link_state with
  | some la, some lb =>
    decide (dev_pwr_rank a.dev_state < dev_pwr_rank b.dev_state) ||
      (decide (dev_pwr_rank a.dev_state = dev_pwr_rank b.dev_state) && decide (la < lb))
  | _, _ => false

/-! ## SCSI LUN to UPIU LUN -/

/-- The C function `ufshcd_scsi_to_upiu_lun`, which maps a SCSI LUN to the UPIU LUN. The
helper `scsi_is_wlun` (of `scsi/scsi.h`) and the constants `UFS_UPIU_MAX_UNIT_NUM_ID` and
`UFS_UPIU_WLUN_ID` (of `ufs.h`) are not declared in the header and are parameters. The
return type is `u8`: the value of the returned expression is reduced modulo `2 ^ 8`. -/
def ufshcd_scsi_to_upiu_lun (scsi_is_wlun : Nat → Bool)
    (UFS_UPIU_MAX_UNIT_NUM_ID UFS_UPIU_WLUN_ID : Nat) (scsi_lun : Nat) : Nat :=
  if scsi_is_wlun scsi_lun then
    ((scsi_lun &&& UFS_UPIU_MAX_UNIT_NUM_ID) ||| UFS_UPIU_WLUN_ID) % 2 ^ 8
  else
    (scsi_lun &&& UFS_UPIU_MAX_UNIT_NUM_ID) % 2 ^ 8

/-! ## Host capabilities and quirks -/

/-- Capability bit: allow dynamic clk gating. -/
def UFSHCD_CAP_CLK_GATING : Nat := 1 <<< 0
/-- Capability bit: allow hibern8 with clk gating. -/
def UFSHCD_CAP_HIBERN8_WITH_CLK_GATING : Nat := 1 <<< 1
/-- Capability bit: allow dynamic clk scaling. -/
def UFSHCD_CAP_CLK_SCALING : Nat := 1 <<< 2
/-- Capability bit: allow auto bkops to be enabled during runtime suspend. -/
def UFSHCD_CAP_AUTO_BKOPS_SUSPEND : Nat := 1 <<< 3
/-- Capability bit: use the interrupt aggregation capability of the UFS HCI. -/
def UFSHCD_CAP_INTR_AGGR : Nat := 1 <<< 4
/-- Capability bit: keep auto-bkops always enabled except during suspend. -/
def UFSHCD_CAP_KEEP_AUTO_BKOPS_ENABLED_EXCEPT_SUSPEND : Nat := 1 <<< 5
/-- Capability bit: enable runtime power management automatically. -/
def UFSHCD_CAP_RPM_AUTOSUSPEND : Nat := 1 <<< 6
/-- Capability bit: use the inline crypto engine. -/
def UFSHCD_CAP_CRYPTO : Nat := 1 <<< 7
/-- Capability bit of the QTI build: power collapse during hibern8. -/
def UFSHCD_CAP_POWER_COLLAPSE_DURING_HIBERN8 : Nat := 1 <<< 9
/-- Capability bit of the QTI build: allow standalone hibern8 enter on idle. -/
def UFSHCD_CAP_HIBERN8_ENTER_ON_IDLE : Nat := 1 <<< 10

/-- Quirk bit: interrupt aggregation support is broken. -/
def UFSHCD_QUIRK_BROKEN_INTR_AGGR : Nat := 0x1

/-- The C function `ufshcd_is_clkgating_allowed`. Its `bool` result is the conversion of
the `u32` value `caps & bit`: true exactly when that value is not zero. -/
def ufshcd_is_clkgating_allowed (hba : ufs_hba) : Bool :=
  (hba.caps &&& UFSHCD_CAP_CLK_GATING) != 0

/-- The C function `ufshcd_can_hibern8_during_gating`. -/
def ufshcd_can_hibern8_during_gating (hba : ufs_hba) : Bool :=
  (hba.caps &&& UFSHCD_CAP_HIBERN8_WITH_CLK_GATING) != 0

/-- The C function `ufshcd_is_clkscaling_supported`; it returns an `int`, the masked value
itself. -/
def ufshcd_is_clkscaling_supported (hba : ufs_hba) : Int :=
  ((hba.caps &&& UFSHCD_CAP_CLK_SCALING : Nat) : Int)

/-- The C function `ufshcd_can_autobkops_during_suspend`. -/
def ufshcd_can_autobkops_during_suspend (hba : ufs_hba) : Bool :=
  (hba.caps &&& UFSHCD_CAP_AUTO_BKOPS_SUSPEND) != 0

/-- The C function `ufshcd_is_rpm_autosuspend_allowed`. -/
def ufshcd_is_rpm_autosuspend_allowed (hba : ufs_hba) : Bool :=
  (hba.caps &&& UFSHCD_CAP_RPM_AUTOSUSPEND) != 0

/-- The C function `ufshcd_is_intr_aggr_allowed`. The build option
`CONFIG_SCSI_UFS_DWC` is a parameter: with it the function returns true. -/
def ufshcd_is_intr_aggr_allowed (CONFIG_SCSI_UFS_DWC : Bool) (hba : ufs_hba) : Bool :=
  if CONFIG_SCSI_UFS_DWC then true
  else if (hba.caps &&& UFSHCD_CAP_INTR_AGGR) != 0 &&
      !((hba.quirks &&& UFSHCD_QUIRK_BROKEN_INTR_AGGR) != 0) then true
  else false

/-- The C function `ufshcd_is_power_collapse_during_hibern8_allowed` of the QTI build: the
double negation `!!` of the masked value. -/
def ufshcd_is_power_collapse_during_hibern8_allowed (hba : ufs_hba) : Bool :=
  !(!((hba.caps &&& UFSHCD_CAP_POWER_COLLAPSE_DURING_HIBERN8) != 0))

/-- The C function `ufshcd_is_hibern8_on_idle_allowed` of the QTI build. -/
def ufshcd_is_hibern8_on_idle_allowed (hba : ufs_hba) : Bool :=
  (hba.caps &&& UFSHCD_CAP_HIBERN8_ENTER_ON_IDLE) != 0

/-- The C function `ufshcd_keep_autobkops_enabled_except_suspend`. -/
def ufshcd_keep_autobkops_enabled_except_suspend (hba : ufs_hba) : Bool :=
  (hba.caps &&& UFSHCD_CAP_KEEP_AUTO_BKOPS_ENABLED_EXCEPT_SUSPEND) != 0

/-! ## Variant private data -/

/-- The C function `ufshcd_set_variant`. The `hba` pointer may be null (`none`);
`BUG_ON(!hba)` then stops the kernel and there is no state after the call (`none`). -/
def ufshcd_set_variant (hba : Option ufs_hba) (variant : Option Nat) : Option ufs_hba :=
  match hba with
  | none => none
  | some h => some { h with priv := variant }

/-- The C function `ufshcd_get_variant`: the hba it leaves behind and the pointer it
returns; `none` when `BUG_ON(!hba)` fires. -/
def ufshcd_get_variant (hba : Option ufs_hba) : Option (ufs_hba × Option Nat) :=
  match hba with
  | none => none
  | some h => some (h, h.priv)

/-! ## Error history -/

/-- A sequence of `ufshcd_update_reg_hist` calls on one history, each call given by its
time stamp and its register value. -/
def reg_hist_appends (reg_hist : ufs_err_reg_hist) (calls : List (Int × Nat)) :
    ufs_err_reg_hist :=
  calls.foldl (fun h c => ufshcd_update_reg_hist c.1 h c.2) reg_hist

/-- A history as the structure declares it: `pos` is an index of the two arrays of
`UFS_ERR_REG_HIST_LENGTH` entries. -/
def reg_hist_wf (h : ufs_err_reg_hist) : Prop :=
  0 ≤ h.pos ∧ h.pos < 8 ∧ h.reg.length = 8 ∧ h.tstamp.length = 8

/-- The register values of a history in the order of their age: from the entry at `pos`,
which the next call overwrites, round to the entry before `pos`, the newest. -/
def reg_hist_entries (h : ufs_err_reg_hist) : List Nat :=
  (List.range UFS_ERR_REG_HIST_LENGTH).map
    (fun j => h.reg.getD ((h.pos.toNat + j) % UFS_ERR_REG_HIST_LENGTH) 0)

/-- The time stamps of a history in the order of their age. -/
def reg_hist_tstamps (h : ufs_err_reg_hist) : List Int :=
  (List.range UFS_ERR_REG_HIST_LENGTH).map
    (fun j => h.tstamp.getD ((h.pos.toNat + j) % UFS_ERR_REG_HIST_LENGTH) 0)

/-! ## Slot manager -/

/-- A bit set with bit `nr` removed. -/
def bit_clear (nr bits : Nat) : Nat := bits ^^^ (bits &&& (1 <<< nr))

/-- Modelled from the spec: `free_slot` (in `ufshcd.c`, not part of the sources at hand)
clears the outstanding bit and releases the slot for reuse. -/
def free_slot (hba : ufs_hba) (tag : Nat) : ufs_hba :=
  { hba with
    lrb_in_use := bit_clear tag hba.lrb_in_use
    outstanding_reqs := bit_clear tag hba.outstanding_reqs }

/-- The invariant of the outstanding set in the spec's data model, in the direction the slot
manager needs: a slot that is marked outstanding is busy. -/
def slot_inv (hba : ufs_hba) : Prop :=
  ∀ i, hba.outstanding_reqs.testBit i = true → hba.lrb_in_use.testBit i = true

/-! ## Clock gating -/

/-- The DME command addresses the local end of the link. -/
def DME_LOCAL : Nat := 0
/-- The DME command addresses the peer. -/
def DME_PEER : Nat := 1
/-- Attribute set type NORMAL. -/
def ATTR_SET_NOR : Nat := 0
/-- Attribute set type STATIC. -/
def ATTR_SET_ST : Nat := 1

/-- The type of the primitive `ufshcd_dme_set_attr(hba, attr_sel, attr_set, mib_val, peer)`,
which the header declares `extern`: it gets the `hba` and its four arguments and returns the
`hba` it leaves and its `int` result. -/
abbrev dme_set_attr_fn := ufs_hba → Nat → Nat → Nat → Nat → ufs_hba × Int

/-- The type of the primitive `ufshcd_dme_get_attr(hba, attr_sel, mib_val, peer)`, which the
header declares `extern`. The pointer `mib_val` is passed as the value it points to, and
the primitive hands back the `hba`, the value it leaves there and its `int` result. -/
abbrev dme_get_attr_fn := ufs_hba → Nat → Nat → Nat → ufs_hba × Nat × Int

/-- The C function `ufshcd_dme_set`; the primitive is a parameter. -/
def ufshcd_dme_set (ufshcd_dme_set_attr : dme_set_attr_fn) (hba : ufs_hba)
    (attr_sel mib_val : Nat) : ufs_hba × Int :=
  ufshcd_dme_set_attr hba attr_sel ATTR_SET_NOR mib_val DME_LOCAL

/-- The C function `ufshcd_dme_st_set`. -/
def ufshcd_dme_st_set (ufshcd_dme_set_attr : dme_set_attr_fn) (hba : ufs_hba)
    (attr_sel mib_val : Nat) : ufs_hba × Int :=
  ufshcd_dme_set_attr hba attr_sel ATTR_SET_ST mib_val DME_LOCAL

/-- The C function `ufshcd_dme_peer_set`. -/
def ufshcd_dme_peer_set (ufshcd_dme_set_attr : dme_set_attr_fn) (hba : ufs_hba)
    (attr_sel mib_val : Nat) : ufs_hba × Int :=
  ufshcd_dme_set_attr hba attr_sel ATTR_SET_NOR mib_val DME_PEER

/-- The C function `ufshcd_dme_peer_st_set`. -/
def ufshcd_dme_peer_st_set (ufshcd_dme_set_attr : dme_set_attr_fn) (hba : ufs_hba)
    (attr_sel mib_val : Nat) : ufs_hba × Int :=
  ufshcd_dme_set_attr hba attr_sel ATTR_SET_ST mib_val DME_PEER

/-- The C function `ufshcd_dme_get`. -/
def ufshcd_dme_get (ufshcd_dme_get_attr : dme_get_attr_fn) (hba : ufs_hba)
    (attr_sel mib_val : Nat) : ufs_hba × Nat × Int :=
  ufshcd_dme_get_attr hba attr_sel mib_val DME_LOCAL

/-- The C function `ufshcd_dme_peer_get`. -/
def ufshcd_dme_peer_get (ufshcd_dme_get_attr : dme_get_attr_fn) (hba : ufs_hba)
    (attr_sel mib_val : Nat) : ufs_hba × Nat × Int :=
  ufshcd_dme_get_attr hba attr_sel mib_val DME_PEER

/-! ## Concrete values the theorems are evaluated at -/

/-- An empty error history. -/
def example_hist : ufs_err_reg_hist :=
  { pos := 0, reg := List.replicate 8 0, tstamp := List.replicate 8 0 }

/-- Statistics with nothing recorded. -/
def example_stats : ufs_stats :=
  { last_intr_status := 0, last_intr_ts := 0, hibern8_exit_cnt := 0
    last_hibern8_exit_tstamp := 0
    pa_err := example_hist, dl_err := example_hist, nl_err := example_hist
    tl_err := example_hist, dme_err := example_hist, auto_hibern8_err := example_hist
    fatal_err := example_hist, link_startup_err := example_hist
    resume_err := example_hist, suspend_err := example_hist, dev_reset := example_hist
    host_reset := example_hist, task_abort := example_hist }

/-- A power mode: gear 1, one lane. -/
def example_attr : ufs_pa_layer_attr :=
  { gear_rx := 1, gear_tx := 1, lane_rx := 1, lane_tx := 1, pwr_rx := 5, pwr_tx := 5
    hs_rate := 0 }

/-- A freshly allocated `hba`: no variant operations, link off, 32 slots; the device is
asleep and the WriteBooster is allowed and on. -/
def example_hba : ufs_hba :=
  { mmio_base := fun _ => 0
    curr_dev_pwr_mode := UFS_SLEEP_PWR_MODE
    uic_link_state := UIC_LINK_OFF_STATE
    rpm_lvl := 0, spm_lvl := 0, pm_op_in_progress := 0, ahit := 0
    lrb_in_use := 0, outstanding_tasks := 0, outstanding_reqs := 0
    capabilities := 0, nutrs := 32, nutmrs := 8, ufs_version := 0x210
    vops := none, priv := none, quirks := 0, dev_quirks := 0
    tm_condition := 0, tm_slots_in_use := 0, active_uic_cmd := none
    ufshcd_state := 0, eh_flags := 0, intr_mask := 0, is_powered := true
    errors := 0, uic_error := 0, saved_err := 0, saved_uic_err := 0
    ufs_stats := example_stats, force_reset := false, auto_bkops_enabled := false
    req_abort_count := 0, lanes_per_direction := 2
    pwr_info := example_attr
    max_pwr_info := { is_valid := false, info := example_attr }
    clk_gating := { state := CLKS_ON, delay_ms := 150, is_suspended := false
                    is_enabled := true, active_reqs := 0 }
    caps := UFSHCD_CAP_WB_EN, is_sys_suspended := false
    wb_buf_flush_enabled := true, wb_enabled := true }

/-- A table of variant operations without any hook. -/
def example_vops_empty : ufs_hba_variant_ops :=
  { name := "none", init := none, exit := none, get_ufs_hci_version := none
    clk_scale_notify := none, setup_clocks := none, setup_regulators := none
    hce_enable_notify := none, link_startup_notify := none, pwr_change_notify := none
    setup_xfer_req := none, compl_xfer_req := none, setup_task_mgmt := none
    hibern8_notify := none, apply_dev_quirks := none, fixup_dev_quirks := none
    suspend := none, resume := none, dbg_register_dump := none
    phy_initialization := none, device_reset := none, program_key := none
    config_scaling_param := none }

/-- A hook that counts its calls in `req_abort_count` and fails with the code `-5`. -/
def example_failing_hook (hba : ufs_hba) : ufs_hba × Int :=
  ({ hba with req_abort_count := hba.req_abort_count + 1 }, -5)

/-- A notify hook that counts its calls in `req_abort_count`, records the status it is
called with in `ufshcd_state` and fails with the code `-22`. -/
def example_notify_hook (hba : ufs_hba) (status : Nat) : ufs_hba × Int :=
  ({ hba with req_abort_count := hba.req_abort_count + 1, ufshcd_state := status }, -22)

/-- A table of variant operations with the hooks above. -/
def example_vops : ufs_hba_variant_ops :=
  { example_vops_empty with
    name := "example"
    init := some example_failing_hook
    clk_scale_notify := some (fun hba _ status => example_notify_hook hba status)
    setup_clocks := some (fun hba _ status => example_notify_hook hba status)
    setup_regulators := some (fun hba _ => example_failing_hook hba)
    hce_enable_notify := some example_notify_hook
    link_startup_notify := some example_notify_hook
    pwr_change_notify := some (fun hba status a b =>
      ((example_notify_hook hba status).1, a, b, (example_notify_hook hba status).2))
    apply_dev_quirks := some example_failing_hook
    suspend := some example_notify_hook
    resume := some example_notify_hook }

/-- The memory the `vops` pointers point into: the empty table at address 0, the
example table everywhere else. -/
def example_vt (p : Nat) : ufs_hba_variant_ops :=
  if p = 0 then example_vops_empty else example_vops

/-- The well known LUN test of `scsi/scsi.h`, used to evaluate `ufshcd_scsi_to_upiu_lun`:
the LUN is in the page of `SCSI_W_LUN_BASE` (`0xc100`). -/
def example_scsi_is_wlun (lun : Nat) : Bool := (lun &&& 0xff00) == 0xc100

/-- A device reset hook: it pulses the reset line, which takes the link down, and counts
its calls in `req_abort_count`. -/
def example_reset_hook (hba : ufs_hba) : ufs_hba :=
  { hba with uic_link_state := UIC_LINK_OFF_STATE, req_abort_count := hba.req_abort_count + 1 }

/-- A table of variant operations whose only hook is `device_reset`. -/
def example_reset_vops : ufs_hba_variant_ops :=
  { example_vops_empty with name := "reset", device_reset := some example_reset_hook }

/-- A memory with the reset table at every address. -/
def example_reset_vt (_ : Nat) : ufs_hba_variant_ops := example_reset_vops

/-- Ten recorded errors: the register values 1 to 10 with the time stamps 100 to 109. -/
def example_calls : List (Int × Nat) :=
  [(100, 1), (101, 2), (102, 3), (103, 4), (104, 5), (105, 6), (106, 7), (107, 8),
   (108, 9), (109, 10)]

/-- A DME set primitive that records its four arguments in the hba (`ahit`, `eh_flags`,
`intr_mask`, `errors`), counts its calls in `req_abort_count` and fails with `-110`. -/
def example_dme_set_attr : dme_set_attr_fn :=
  fun hba attr_sel attr_set mib_val peer =>
    ({ hba with ahit := attr_sel, eh_flags := attr_set, intr_mask := mib_val, errors := peer
                req_abort_count := hba.req_abort_count + 1 }, -110)

/-! ## Theorems -/

/-- The hook `hook` of `hba` is absent: the variant operations table is absent, or it is
there and its hook pointer is null. -/
def hook_absent {α : Type} (vt : Nat → ufs_hba_variant_ops) (hba : ufs_hba)
    (hook : ufs_hba_variant_ops → Option α) : Prop :=
  hba.vops = none ∨ ∃ p, hba.vops = some p ∧ hook (vt p) = none

theorem vops_hook_of_absent {α : Type} {vt : Nat → ufs_hba_variant_ops} {hba : ufs_hba}
    {hook : ufs_hba_variant_ops → Option α} (h : hook_absent vt hba hook) :
    vops_hook vt hba hook = none := by
  rcases h with h | ⟨p, hp, hn⟩
  · simp [vops_hook, h]
  · simp [vops_hook, hp, hn]

theorem vops_hook_of_present {α : Type} {vt : Nat → ufs_hba_variant_ops} {hba : ufs_hba}
    (hook : ufs_hba_variant_ops → Option α) {p : Nat} {f : α}
    (hp : hba.vops = some p) (hf : hook (vt p) = some f) :
    vops_hook vt hba hook = some f := by
  simp [vops_hook, hp, hf]

/-! ### Absent hooks -/

/-- C1, as stated, fails: with no variant operations table at all,
`ufshcd_vops_pwr_change_notify` returns `-ENOTSUPP` (`-524` with the kernel's value of the
constant), not 0. -/
theorem ufshcd_vops_pwr_change_notify_absent_not_zero :
    hook_absent example_vt example_hba (fun v => v.pwr_change_notify) ∧
    (ufshcd_vops_pwr_change_notify 524 example_vt example_hba false
      example_attr example_attr).2.2.2 = -524 ∧
    (ufshcd_vops_pwr_change_notify 524 example_vt example_hba false
      example_attr example_attr).2.2.2 ≠ 0 := by
  refine ⟨Or.inl rfl, rfl, ?_⟩
  decide

/-- C1, amended: when the variant operations table or the hook is absent, the nine wrappers
`ufshcd_vops_init`, `_clk_scale_notify`, `_setup_clocks`, `_setup_regulators`,
`_hce_enable_notify`, `_link_startup_notify`, `_apply_dev_quirks`, `_suspend` and `_resume`
return 0 for all other arguments, and `ufshcd_vops_pwr_change_notify` returns `-ENOTSUPP`. -/
theorem ufshcd_vops_int_wrappers_absent (vt : Nat → ufs_hba_variant_ops) (hba : ufs_hba) :
    (hook_absent vt hba (fun v => v.init) → (ufshcd_vops_init vt hba).2 = 0) ∧
    (hook_absent vt hba (fun v => v.clk_scale_notify) →
      ∀ up status, (ufshcd_vops_clk_scale_notify vt hba up status).2 = 0) ∧
    (hook_absent vt hba (fun v => v.setup_clocks) →
      ∀ on_ status, (ufshcd_vops_setup_clocks vt hba on_ status).2 = 0) ∧
    (hook_absent vt hba (fun v => v.setup_regulators) →
      ∀ status, (ufshcd_vops_setup_regulators vt hba status).2 = 0) ∧
    (hook_absent vt hba (fun v => v.hce_enable_notify) →
      ∀ status, (ufshcd_vops_hce_enable_notify vt hba status).2 = 0) ∧
    (hook_absent vt hba (fun v => v.link_startup_notify) →
      ∀ status, (ufshcd_vops_link_startup_notify vt hba status).2 = 0) ∧
    (hook_absent vt hba (fun v => v.apply_dev_quirks) →
      (ufshcd_vops_apply_dev_quirks vt hba).2 = 0) ∧
    (hook_absent vt hba (fun v => v.suspend) → ∀ op, (ufshcd_vops_suspend vt hba op).2 = 0) ∧
    (hook_absent vt hba (fun v => v.resume) → ∀ op, (ufshcd_vops_resume vt hba op).2 = 0) ∧
    (hook_absent vt hba (fun v => v.pwr_change_notify) →
      ∀ ENOTSUPP status dev_max_params dev_req_params,
        (ufshcd_vops_pwr_change_notify ENOTSUPP vt hba status dev_max_params
          dev_req_params).2.2.2 = -ENOTSUPP) := by
  refine ⟨?_, ?_, ?_, ?_, ?_, ?_, ?_, ?_, ?_, ?_⟩
  · intro h; simp [ufshcd_vops_init, vops_hook_of_absent h]
  · intro h up status; simp [ufshcd_vops_clk_scale_notify, vops_hook_of_absent h]
  · intro h on_ status; simp [ufshcd_vops_setup_clocks, vops_hook_of_absent h]
  · intro h status; simp [ufshcd_vops_setup_regulators, vops_hook_of_absent h]
  · intro h status; simp [ufshcd_vops_hce_enable_notify, vops_hook_of_absent h]
  · intro h status; simp [ufshcd_vops_link_startup_notify, vops_hook_of_absent h]
  · intro h; simp [ufshcd_vops_apply_dev_quirks, vops_hook_of_absent h]
  · intro h op; simp [ufshcd_vops_suspend, vops_hook_of_absent h]
  · intro h op; simp [ufshcd_vops_resume, vops_hook_of_absent h]
  · intro h E status a b; simp [ufshcd_vops_pwr_change_notify, vops_hook_of_absent h]

/-- At address 0 of the example memory lies the table without hooks: every hook of an hba
whose `vops` points there is absent. -/
theorem example_hook_absent_at_zero {α : Type} (hook : ufs_hba_variant_ops → Option α)
    (h : hook example_vops_empty = none) :
    hook_absent example_vt { example_hba with vops := some 0 } hook :=
  Or.inr ⟨0, rfl, by simpa [example_vt] using h⟩

/-- Witness of `ufshcd_vops_int_wrappers_absent`: an hba whose table is there but has no
`init` and no `suspend` hook, and an hba without table. -/
theorem ufshcd_vops_int_wrappers_absent_witness :
    (ufshcd_vops_init example_vt { example_hba with vops := some 0 }).2 = 0 ∧
    (ufshcd_vops_suspend example_vt { example_hba with vops := some 0 } UFS_SYSTEM_PM).2 = 0 ∧
    (ufshcd_vops_hce_enable_notify example_vt example_hba true).2 = 0 ∧
    (ufshcd_vops_pwr_change_notify 524 example_vt example_hba true example_attr
      example_attr).2.2.2 = -524 :=
  ⟨(ufshcd_vops_int_wrappers_absent example_vt { example_hba with vops := some 0 }).1
      (example_hook_absent_at_zero _ rfl),
   (ufshcd_vops_int_wrappers_absent example_vt
      { example_hba with vops := some 0 }).2.2.2.2.2.2.2.1
      (example_hook_absent_at_zero _ rfl) UFS_SYSTEM_PM,
   (ufshcd_vops_int_wrappers_absent example_vt example_hba).2.2.2.2.1 (Or.inl rfl) true,
   (ufshcd_vops_int_wrappers_absent example_vt example_hba).2.2.2.2.2.2.2.2.2 (Or.inl rfl)
      524 true example_attr example_attr⟩

/-- C2: when the variant operations table or the hook is absent, each of the nine void
wrappers leaves the hba exactly as it was; in particular `ufshcd_vops_device_reset` then
changes neither `curr_dev_pwr_mode`, `wb_enabled`, `wb_buf_flush_enabled` nor the
`dev_reset` error history. -/
theorem ufshcd_vops_void_wrappers_absent (vt : Nat → ufs_hba_variant_ops) (hba : ufs_hba) :
    (hook_absent vt hba (fun v => v.exit) → ufshcd_vops_exit vt hba = hba) ∧
    (hook_absent vt hba (fun v => v.setup_xfer_req) →
      ∀ tag is_scsi_cmd, ufshcd_vops_setup_xfer_req vt hba tag is_scsi_cmd = hba) ∧
    (hook_absent vt hba (fun v => v.compl_xfer_req) →
      ∀ tag is_scsi, ufshcd_vops_compl_xfer_req vt hba tag is_scsi = hba) ∧
    (hook_absent vt hba (fun v => v.setup_task_mgmt) →
      ∀ tag tm_function, ufshcd_vops_setup_task_mgmt vt hba tag tm_function = hba) ∧
    (hook_absent vt hba (fun v => v.hibern8_notify) →
      ∀ cmd status, ufshcd_vops_hibern8_notify vt hba cmd status = hba) ∧
    (hook_absent vt hba (fun v => v.fixup_dev_quirks) →
      ufshcd_vops_fixup_dev_quirks vt hba = hba) ∧
    (hook_absent vt hba (fun v => v.dbg_register_dump) →
      ufshcd_vops_dbg_register_dump vt hba = hba) ∧
    (hook_absent vt hba (fun v => v.config_scaling_param) →
      ∀ profile data, ufshcd_vops_config_scaling_param vt hba profile data = hba) ∧
    (hook_absent vt hba (fun v => v.device_reset) → ∀ now,
      ufshcd_vops_device_reset now vt hba = hba ∧
      (ufshcd_vops_device_reset now vt hba).curr_dev_pwr_mode = hba.curr_dev_pwr_mode ∧
      (ufshcd_vops_device_reset now vt hba).wb_enabled = hba.wb_enabled ∧
      (ufshcd_vops_device_reset now vt hba).wb_buf_flush_enabled = hba.wb_buf_flush_enabled ∧
      (ufshcd_vops_device_reset now vt hba).ufs_stats.dev_reset = hba.ufs_stats.dev_reset) := by
  refine ⟨?_, ?_, ?_, ?_, ?_, ?_, ?_, ?_, ?_⟩
  · intro h; simp [ufshcd_vops_exit, vops_hook_of_absent h]
  · intro h tag b; simp [ufshcd_vops_setup_xfer_req, vops_hook_of_absent h]
  · intro h tag b; simp [ufshcd_vops_compl_xfer_req, vops_hook_of_absent h]
  · intro h tag t; simp [ufshcd_vops_setup_task_mgmt, vops_hook_of_absent h]
  · intro h cmd status; simp [ufshcd_vops_hibern8_notify, vops_hook_of_absent h]
  · intro h; simp [ufshcd_vops_fixup_dev_quirks, vops_hook_of_absent h]
  · intro h; simp [ufshcd_vops_dbg_register_dump, vops_hook_of_absent h]
  · intro h profile data; simp [ufshcd_vops_config_scaling_param, vops_hook_of_absent h]
  · intro h now
    have e : ufshcd_vops_device_reset now vt hba = hba := by
      simp [ufshcd_vops_device_reset, vops_hook_of_absent h]
    simp [e]

/-- Witness of `ufshcd_vops_void_wrappers_absent`: the device reset without a table, on an
hba whose device is asleep with the WriteBooster on, and the exit hook of a table that has
none. -/
theorem ufshcd_vops_void_wrappers_absent_witness :
    ufshcd_vops_device_reset 1000 example_vt example_hba = example_hba ∧
    (ufshcd_vops_device_reset 1000 example_vt example_hba).curr_dev_pwr_mode
      = UFS_SLEEP_PWR_MODE ∧
    (ufshcd_vops_device_reset 1000 example_vt example_hba).wb_enabled = true ∧
    ufshcd_vops_exit example_vt { example_hba with vops := some 0 }
      = { example_hba with vops := some 0 } :=
  ⟨((ufshcd_vops_void_wrappers_absent example_vt example_hba).2.2.2.2.2.2.2.2
      (Or.inl rfl) 1000).1,
   ((ufshcd_vops_void_wrappers_absent example_vt example_hba).2.2.2.2.2.2.2.2
      (Or.inl rfl) 1000).2.1,
   ((ufshcd_vops_void_wrappers_absent example_vt example_hba).2.2.2.2.2.2.2.2
      (Or.inl rfl) 1000).2.2.1,
   (ufshcd_vops_void_wrappers_absent example_vt { example_hba with vops := some 0 }).1
      (example_hook_absent_at_zero _ rfl)⟩

/-! ### Present hooks -/

/-- C3: when the variant operations table and the hook are both present, each int-returning
wrapper is one application of the hook to the hba and the wrapper's own arguments, and
hands back what the hook returned (state and return value, a failure code included). The
`bool status` of `ufshcd_vops_hce_enable_notify`, `ufshcd_vops_link_startup_notify` and
`ufshcd_vops_pwr_change_notify` reaches the hook as `PRE_CHANGE` for false and as
`POST_CHANGE` for true. The hook is arbitrary, so the equation fixes the number of
calls: a hook that counts its calls is left at one call more. -/
theorem ufshcd_vops_int_wrappers_present (vt : Nat → ufs_hba_variant_ops) (hba : ufs_hba)
    (p : Nat) (hp : hba.vops = some p) :
    (∀ f, (vt p).init = some f → ufshcd_vops_init vt hba = f hba) ∧
    (∀ f, (vt p).clk_scale_notify = some f →
      ∀ up status, ufshcd_vops_clk_scale_notify vt hba up status = f hba up status) ∧
    (∀ f, (vt p).setup_clocks = some f →
      ∀ on_ status, ufshcd_vops_setup_clocks vt hba on_ status = f hba on_ status) ∧
    (∀ f, (vt p).setup_regulators = some f →
      ∀ status, ufshcd_vops_setup_regulators vt hba status = f hba status) ∧
    (∀ f, (vt p).hce_enable_notify = some f →
      ∀ status, ufshcd_vops_hce_enable_notify vt hba status
        = f hba (if status then POST_CHANGE else PRE_CHANGE)) ∧
    (∀ f, (vt p).link_startup_notify = some f →
      ∀ status, ufshcd_vops_link_startup_notify vt hba status
        = f hba (if status then POST_CHANGE else PRE_CHANGE)) ∧
    (∀ f, (vt p).pwr_change_notify = some f →
      ∀ ENOTSUPP status dev_max_params dev_req_params,
        ufshcd_vops_pwr_change_notify ENOTSUPP vt hba status dev_max_params dev_req_params
          = f hba (if status then POST_CHANGE else PRE_CHANGE) dev_max_params
              dev_req_params) ∧
    (∀ f, (vt p).apply_dev_quirks = some f → ufshcd_vops_apply_dev_quirks vt hba = f hba) ∧
    (∀ f, (vt p).suspend = some f → ∀ op, ufshcd_vops_suspend vt hba op = f hba op) ∧
    (∀ f, (vt p).resume = some f → ∀ op, ufshcd_vops_resume vt hba op = f hba op) := by
  refine ⟨?_, ?_, ?_, ?_, ?_, ?_, ?_, ?_, ?_, ?_⟩
  · intro f hf
    simp [ufshcd_vops_init, vops_hook_of_present (fun v => v.init) hp hf]
  · intro f hf up status
    simp [ufshcd_vops_clk_scale_notify,
      vops_hook_of_present (fun v => v.clk_scale_notify) hp hf]
  · intro f hf on_ status
    simp [ufshcd_vops_setup_clocks,
      vops_hook_of_present (fun v => v.setup_clocks) hp hf]
  · intro f hf status
    simp [ufshcd_vops_setup_regulators,
      vops_hook_of_present (fun v => v.setup_regulators) hp hf]
  · intro f hf status
    cases status <;>
      simp [ufshcd_vops_hce_enable_notify, PRE_CHANGE, POST_CHANGE,
        vops_hook_of_present (fun v => v.hce_enable_notify) hp hf]
  · intro f hf status
    cases status <;>
      simp [ufshcd_vops_link_startup_notify, PRE_CHANGE, POST_CHANGE,
        vops_hook_of_present (fun v => v.link_startup_notify) hp hf]
  · intro f hf E status a b
    cases status <;>
      simp [ufshcd_vops_pwr_change_notify, PRE_CHANGE, POST_CHANGE,
        vops_hook_of_present (fun v => v.pwr_change_notify) hp hf]
  · intro f hf
    simp [ufshcd_vops_apply_dev_quirks,
      vops_hook_of_present (fun v => v.apply_dev_quirks) hp hf]
  · intro f hf op
    simp [ufshcd_vops_suspend, vops_hook_of_present (fun v => v.suspend) hp hf]
  · intro f hf op
    simp [ufshcd_vops_resume, vops_hook_of_present (fun v => v.resume) hp hf]

/-- Witness of `ufshcd_vops_int_wrappers_present`: with the example table at address 1,
`ufshcd_vops_init` surfaces the failure code `-5` of its hook and leaves the call counter
at one, and `ufshcd_vops_hce_enable_notify` with `true` hands `POST_CHANGE` to its hook
and surfaces the `-22`. -/
theorem ufshcd_vops_int_wrappers_present_witness :
    (ufshcd_vops_init example_vt { example_hba with vops := some 1 }).2 = -5 ∧
    (ufshcd_vops_init example_vt { example_hba with vops := some 1 }).1.req_abort_count = 1 ∧
    (ufshcd_vops_hce_enable_notify example_vt { example_hba with vops := some 1 } true).2
      = -22 ∧
    (ufshcd_vops_hce_enable_notify example_vt
      { example_hba with vops := some 1 } true).1.ufshcd_state = POST_CHANGE :=
  ⟨congrArg Prod.snd
      ((ufshcd_vops_int_wrappers_present example_vt { example_hba with vops := some 1 } 1
        rfl).1 example_failing_hook rfl),
   congrArg (fun r => r.1.req_abort_count)
      ((ufshcd_vops_int_wrappers_present example_vt { example_hba with vops := some 1 } 1
        rfl).1 example_failing_hook rfl),
   congrArg Prod.snd
      ((ufshcd_vops_int_wrappers_present example_vt { example_hba with vops := some 1 } 1
        rfl).2.2.2.2.1 example_notify_hook rfl true),
   congrArg (fun r => r.1.ufshcd_state)
      ((ufshcd_vops_int_wrappers_present example_vt { example_hba with vops := some 1 } 1
        rfl).2.2.2.2.1 example_notify_hook rfl true)⟩

/-! ### Link state and device power mode -/

/-- C4: when `uic_link_state` holds one of the four values of `enum uic_link_state`, exactly
one of `ufshcd_is_link_off`, `_active`, `_hibern8`, `_broken` is true; and after
`ufshcd_set_link_X` the predicate `ufshcd_is_link_X` is true and the other three are false,
whatever the state was before. -/
theorem ufshcd_link_predicates_exclusive (hba : ufs_hba) :
    ((hba.uic_link_state = UIC_LINK_OFF_STATE ∨ hba.uic_link_state = UIC_LINK_ACTIVE_STATE ∨
        hba.uic_link_state = UIC_LINK_HIBERN8_STATE ∨
        hba.uic_link_state = UIC_LINK_BROKEN_STATE) →
      (ufshcd_is_link_off hba).toNat + (ufshcd_is_link_active hba).toNat +
        (ufshcd_is_link_hibern8 hba).toNat + (ufshcd_is_link_broken hba).toNat = 1) ∧
    (ufshcd_is_link_off (ufshcd_set_link_off hba) = true ∧
      ufshcd_is_link_active (ufshcd_set_link_off hba) = false ∧
      ufshcd_is_link_hibern8 (ufshcd_set_link_off hba) = false ∧
      ufshcd_is_link_broken (ufshcd_set_link_off hba) = false) ∧
    (ufshcd_is_link_off (ufshcd_set_link_active hba) = false ∧
      ufshcd_is_link_active (ufshcd_set_link_active hba) = true ∧
      ufshcd_is_link_hibern8 (ufshcd_set_link_active hba) = false ∧
      ufshcd_is_link_broken (ufshcd_set_link_active hba) = false) ∧
    (ufshcd_is_link_off (ufshcd_set_link_hibern8 hba) = false ∧
      ufshcd_is_link_active (ufshcd_set_link_hibern8 hba) = false ∧
      ufshcd_is_link_hibern8 (ufshcd_set_link_hibern8 hba) = true ∧
      ufshcd_is_link_broken (ufshcd_set_link_hibern8 hba) = false) ∧
    (ufshcd_is_link_off (ufshcd_set_link_broken hba) = false ∧
      ufshcd_is_link_active (ufshcd_set_link_broken hba) = false ∧
      ufshcd_is_link_hibern8 (ufshcd_set_link_broken hba) = false ∧
      ufshcd_is_link_broken (ufshcd_set_link_broken hba) = true) := by
  refine ⟨?_, ?_, ?_, ?_, ?_⟩
  · intro h
    rcases h with h | h | h | h <;>
      simp [ufshcd_is_link_off, ufshcd_is_link_active, ufshcd_is_link_hibern8,
        ufshcd_is_link_broken, h, UIC_LINK_OFF_STATE, UIC_LINK_ACTIVE_STATE,
        UIC_LINK_HIBERN8_STATE, UIC_LINK_BROKEN_STATE]
  all_goals
    simp [ufshcd_is_link_off, ufshcd_is_link_active, ufshcd_is_link_hibern8,
      ufshcd_is_link_broken, ufshcd_set_link_off, ufshcd_set_link_active,
      ufshcd_set_link_hibern8, ufshcd_set_link_broken, UIC_LINK_OFF_STATE,
      UIC_LINK_ACTIVE_STATE, UIC_LINK_HIBERN8_STATE, UIC_LINK_BROKEN_STATE]

/-- Witness of `ufshcd_link_predicates_exclusive`: the example hba, whose link is off. -/
theorem ufshcd_link_predicates_exclusive_witness :
    (ufshcd_is_link_off example_hba).toNat + (ufshcd_is_link_active example_hba).toNat +
      (ufshcd_is_link_hibern8 example_hba).toNat + (ufshcd_is_link_broken example_hba).toNat
      = 1 :=
  (ufshcd_link_predicates_exclusive example_hba).1 (Or.inl rfl)

/-- C5: every `ufshcd_set_link_*` setter changes `uic_link_state` only (putting the old
link state back gives the old hba, and `curr_dev_pwr_mode` is the old one), every
`ufshcd_set_ufs_dev_*` setter changes `curr_dev_pwr_mode` only, and a link setter and a
device power setter commute. -/
theorem ufshcd_link_and_dev_setters_frame (hba : ufs_hba) :
    (∀ set_link ∈ [ufshcd_set_link_off, ufshcd_set_link_active, ufshcd_set_link_hibern8,
        ufshcd_set_link_broken],
      { set_link hba with uic_link_state := hba.uic_link_state } = hba ∧
      (set_link hba).curr_dev_pwr_mode = hba.curr_dev_pwr_mode) ∧
    (∀ set_dev ∈ [ufshcd_set_ufs_dev_active, ufshcd_set_ufs_dev_sleep,
        ufshcd_set_ufs_dev_poweroff],
      { set_dev hba with curr_dev_pwr_mode := hba.curr_dev_pwr_mode } = hba ∧
      (set_dev hba).uic_link_state = hba.uic_link_state) ∧
    (∀ set_link ∈ [ufshcd_set_link_off, ufshcd_set_link_active, ufshcd_set_link_hibern8,
        ufshcd_set_link_broken],
      ∀ set_dev ∈ [ufshcd_set_ufs_dev_active, ufshcd_set_ufs_dev_sleep,
        ufshcd_set_ufs_dev_poweroff],
      set_link (set_dev hba) = set_dev (set_link hba)) := by
  simp [ufshcd_set_link_off, ufshcd_set_link_active, ufshcd_set_link_hibern8,
    ufshcd_set_link_broken, ufshcd_set_ufs_dev_active, ufshcd_set_ufs_dev_sleep,
    ufshcd_set_ufs_dev_poweroff]

/-- Witness of `ufshcd_link_and_dev_setters_frame`: on the example hba, setting the link to
hibern8 and putting the device to sleep commute, and setting the link broken keeps the
device power mode. -/
theorem ufshcd_link_and_dev_setters_frame_witness :
    ufshcd_set_link_hibern8 (ufshcd_set_ufs_dev_sleep example_hba)
      = ufshcd_set_ufs_dev_sleep (ufshcd_set_link_hibern8 example_hba) ∧
    (ufshcd_set_link_broken example_hba).curr_dev_pwr_mode = example_hba.curr_dev_pwr_mode :=
  ⟨(ufshcd_link_and_dev_setters_frame example_hba).2.2 ufshcd_set_link_hibern8 (by simp)
      ufshcd_set_ufs_dev_sleep (by simp),
   ((ufshcd_link_and_dev_setters_frame example_hba).1 ufshcd_set_link_broken (by simp)).2⟩

/-! ### Power management levels -/

/-- C7: there are exactly six power management levels, `UFS_PM_LVL_0` = 0 up to
`UFS_PM_LVL_5` = 5 with `UFS_PM_LVL_MAX` = 6, and level i of `ufs_pm_lvl_states` is, in
order, (Active, Active), (Active, Hibern8), (Sleep, Active), (Sleep, Hibern8),
(PowerDown, Hibern8), (PowerDown, Off); the six pairs are pairwise distinct and none has
the broken link state. -/
theorem ufs_pm_lvl_states_table :
    (UFS_PM_LVL_0 = 0 ∧ UFS_PM_LVL_1 = 1 ∧ UFS_PM_LVL_2 = 2 ∧ UFS_PM_LVL_3 = 3 ∧
      UFS_PM_LVL_4 = 4 ∧ UFS_PM_LVL_5 = 5 ∧ UFS_PM_LVL_MAX = 6) ∧
    ufs_pm_lvl_states.length = UFS_PM_LVL_MAX ∧
    ufs_pm_lvl_states[UFS_PM_LVL_0]? = some ⟨UFS_ACTIVE_PWR_MODE, UIC_LINK_ACTIVE_STATE⟩ ∧
    ufs_pm_lvl_states[UFS_PM_LVL_1]? = some ⟨UFS_ACTIVE_PWR_MODE, UIC_LINK_HIBERN8_STATE⟩ ∧
    ufs_pm_lvl_states[UFS_PM_LVL_2]? = some ⟨UFS_SLEEP_PWR_MODE, UIC_LINK_ACTIVE_STATE⟩ ∧
    ufs_pm_lvl_states[UFS_PM_LVL_3]? = some ⟨UFS_SLEEP_PWR_MODE, UIC_LINK_HIBERN8_STATE⟩ ∧
    ufs_pm_lvl_states[UFS_PM_LVL_4]? = some ⟨UFS_POWERDOWN_PWR_MODE, UIC_LINK_HIBERN8_STATE⟩ ∧
    ufs_pm_lvl_states[UFS_PM_LVL_5]? = some ⟨UFS_POWERDOWN_PWR_MODE, UIC_LINK_OFF_STATE⟩ ∧
    ufs_pm_lvl_states.Nodup ∧
    (∀ s ∈ ufs_pm_lvl_states, s.link_state ≠ UIC_LINK_BROKEN_STATE) := by
  decide

/-- Witness of `ufs_pm_lvl_states_table`: the pair of the last level, (PowerDown, Off), is
in the table and its link state is not the broken one. -/
theorem ufs_pm_lvl_states_table_witness :
    (ufs_pm_lvl_state.mk UFS_POWERDOWN_PWR_MODE UIC_LINK_OFF_STATE).link_state
      ≠ UIC_LINK_BROKEN_STATE :=
  ufs_pm_lvl_states_table.2.2.2.2.2.2.2.2.2
    (ufs_pm_lvl_state.mk UFS_POWERDOWN_PWR_MODE UIC_LINK_OFF_STATE) (by decide)

/-- C8: the levels are ordered by increasing power savings: for levels i < j below
`UFS_PM_LVL_MAX` the pair of level i is strictly below the pair of level j in the
lexicographic order `pm_lvl_lt` (device power mode Active < Sleep < PowerDown first, link
state Active < Hibern8 < Off second); so the device power mode does not decrease, and
where it stays the same the link moves toward Off. -/
theorem ufs_pm_lvl_states_ordered (i j : Nat) (hij : i < j) (hj : j < UFS_PM_LVL_MAX) :
    ∃ a b, ufs_pm_lvl_states[i]? = some a ∧ ufs_pm_lvl_states[j]? = some b ∧
      pm_lvl_lt a b = true ∧
      dev_pwr_rank a.dev_state ≤ dev_pwr_rank b.dev_state ∧
      (a.dev_state = b.dev_state → ∃ la lb, link_rank a.link_state = some la ∧
        link_rank b.link_state = some lb ∧ la < lb) := by
  have hj6 : j < 6 := hj
  interval_cases j <;> interval_cases i <;>
    first
    | exact ⟨_, _, rfl, rfl, by decide, by decide, fun _ => ⟨_, _, rfl, rfl, by decide⟩⟩
    | exact ⟨_, _, rfl, rfl, by decide, by decide, fun h => absurd h (by decide)⟩

/-- Witness of `ufs_pm_lvl_states_ordered`: levels 1 and 2, where the link goes back from
Hibern8 to Active while the device goes from Active to Sleep. -/
theorem ufs_pm_lvl_states_ordered_witness :
    ∃ a b, ufs_pm_lvl_states[1]? = some a ∧ ufs_pm_lvl_states[2]? = some b ∧
      pm_lvl_lt a b = true ∧
      dev_pwr_rank a.dev_state ≤ dev_pwr_rank b.dev_state ∧
      (a.dev_state = b.dev_state → ∃ la lb, link_rank a.link_state = some la ∧
        link_rank b.link_state = some lb ∧ la < lb) :=
  ufs_pm_lvl_states_ordered 1 2 (by decide) (by decide)

/-! ### Masked register update -/

/-- Bit `i` of the merge `(r AND NOT mask) OR (val AND mask)` of 32-bit values: the bit of
`val` inside the mask, the bit of `r` outside. -/
theorem masked_merge_testBit (r mask val : Nat) (hr : r < 2 ^ 32) (hm : mask < 2 ^ 32)
    (i : Nat) :
    ((r &&& (0xFFFFFFFF ^^^ mask)) ||| (val &&& mask)).testBit i
      = if mask.testBit i then val.testBit i else r.testBit i := by
  have h1 : (0xFFFFFFFF : Nat) = 2 ^ 32 - 1 := by norm_num
  rw [h1]
  simp only [Nat.testBit_or, Nat.testBit_and, Nat.testBit_xor, Nat.testBit_two_pow_sub_one]
  by_cases hi : i < 32
  · simp [hi]; cases mask.testBit i <;> simp
  · have hi' : 2 ^ 32 ≤ 2 ^ i := Nat.pow_le_pow_right (by norm_num) (by omega)
    have h2 : r.testBit i = false := Nat.testBit_lt_two_pow (lt_of_lt_of_le hr hi')
    have h3 : mask.testBit i = false := Nat.testBit_lt_two_pow (lt_of_lt_of_le hm hi')
    simp [h2, h3]

/-- The merge of 32-bit values is a 32-bit value. -/
theorem masked_merge_lt (r mask val : Nat) (hr : r < 2 ^ 32) (hm : mask < 2 ^ 32) :
    (r &&& (0xFFFFFFFF ^^^ mask)) ||| (val &&& mask) < 2 ^ 32 :=
  Nat.or_lt_two_pow (lt_of_le_of_lt Nat.and_le_left hr) (Nat.and_lt_two_pow _ hm)

/-- What `ufshcd_rmwl` stores in the register, for 32-bit contents and arguments. -/
theorem ufshcd_rmwl_written (hba : ufs_hba) (mask val reg r : Nat)
    (hreg : hba.mmio_base reg = r) (hr : r < 2 ^ 32) (hm : mask < 2 ^ 32)
    (hv : val < 2 ^ 32) :
    (ufshcd_rmwl hba mask val reg).mmio_base reg
      = (r &&& (0xFFFFFFFF ^^^ mask)) ||| (val &&& mask) := by
  simp only [ufshcd_rmwl, ufshcd_writel, ufshcd_readl, Function.update_same, hreg,
    Nat.mod_eq_of_lt hr, Nat.mod_eq_of_lt hm, Nat.mod_eq_of_lt hv]
  exact Nat.mod_eq_of_lt (masked_merge_lt r mask val hr hm)

/-- C9: `ufshcd_rmwl(hba, mask, val, reg)` is a masked read-modify-write. For 32-bit old
register contents `r`, `mask` and `val`, the value written to `reg` is
`(r AND NOT mask) OR (val AND mask)` (NOT on 32 bits is the exclusive or with
`0xFFFFFFFF`), itself a 32-bit value; every bit inside the mask is the bit of `val`, every
bit outside is the old bit; `mask = 0` writes `r` back and `mask = 0xFFFFFFFF` writes
`val`. -/
theorem ufshcd_rmwl_masked_update (hba : ufs_hba) (mask val reg r : Nat)
    (hreg : hba.mmio_base reg = r) (hr : r < 2 ^ 32) (hm : mask < 2 ^ 32)
    (hv : val < 2 ^ 32) :
    (ufshcd_rmwl hba mask val reg).mmio_base reg
      = (r &&& (0xFFFFFFFF ^^^ mask)) ||| (val &&& mask) ∧
    (ufshcd_rmwl hba mask val reg).mmio_base reg < 2 ^ 32 ∧
    (∀ i, mask.testBit i = true →
      ((ufshcd_rmwl hba mask val reg).mmio_base reg).testBit i = val.testBit i) ∧
    (∀ i, mask.testBit i = false →
      ((ufshcd_rmwl hba mask val reg).mmio_base reg).testBit i = r.testBit i) ∧
    (mask = 0 → (ufshcd_rmwl hba mask val reg).mmio_base reg = r) ∧
    (mask = 0xFFFFFFFF → (ufshcd_rmwl hba mask val reg).mmio_base reg = val) := by
  have hw := ufshcd_rmwl_written hba mask val reg r hreg hr hm hv
  have hb := masked_merge_testBit r mask val hr hm
  refine ⟨hw, ?_, ?_, ?_, ?_, ?_⟩
  · rw [hw]; exact masked_merge_lt r mask val hr hm
  · intro i hi; rw [hw, hb i, hi]; simp
  · intro i hi; rw [hw, hb i, hi]; simp
  · intro h0
    rw [hw]
    apply Nat.eq_of_testBit_eq
    intro i
    rw [hb i, h0]; simp
  · intro h1
    rw [hw]
    apply Nat.eq_of_testBit_eq
    intro i
    rw [hb i, h1]
    have e : (0xFFFFFFFF : Nat) = 2 ^ 32 - 1 := by norm_num
    rw [e, Nat.testBit_two_pow_sub_one]
    by_cases hi : i < 32
    · simp [hi]
    · have hi' : 2 ^ 32 ≤ 2 ^ i := Nat.pow_le_pow_right (by norm_num) (by omega)
      have h2 : r.testBit i = false := Nat.testBit_lt_two_pow (lt_of_lt_of_le hr hi')
      have h3 : val.testBit i = false := Nat.testBit_lt_two_pow (lt_of_lt_of_le hv hi')
      simp [hi, h2, h3]

/-- An hba whose register `0x30` holds `0x12345678`. -/
theorem example_reg_contents :
    (ufshcd_writel example_hba 0x12345678 0x30).mmio_base 0x30 = 0x12345678 := by
  simp [ufshcd_writel]

/-- Witness of `ufshcd_rmwl_masked_update`: register `0x30` holding `0x12345678`, updated
with mask `0x0000FF00` and value `0xFFFFABFF`, holds `0x1234AB78`. -/
theorem ufshcd_rmwl_masked_update_witness :
    (ufshcd_rmwl (ufshcd_writel example_hba 0x12345678 0x30) 0x0000FF00 0xFFFFABFF
      0x30).mmio_base 0x30 = 0x1234AB78 :=
  (ufshcd_rmwl_masked_update (ufshcd_writel example_hba 0x12345678 0x30) 0x0000FF00
    0xFFFFABFF 0x30 0x12345678 example_reg_contents (by norm_num) (by norm_num)
    (by norm_num)).1.trans (by decide)

/-! ### SCSI LUN to UPIU LUN -/

/-- Or-ing a flag in and masking with it gives the flag back. -/
theorem or_flag_and_flag (x w : Nat) : (x ||| w) &&& w = w := by
  apply Nat.eq_of_testBit_eq
  intro i
  simp only [Nat.testBit_and, Nat.testBit_or]
  cases x.testBit i <;> cases w.testBit i <;> rfl

/-- The value `ufshcd_scsi_to_upiu_lun` computes before the conversion to `u8`, for
constants that fit in 8 bits. -/
theorem upiu_lun_value_lt (wlun : Bool) (M W lun : Nat) (hM : M < 2 ^ 8) (hW : W < 2 ^ 8) :
    (if wlun then (lun &&& M) ||| W else lun &&& M) < 2 ^ 8 := by
  have h : lun &&& M < 2 ^ 8 := Nat.and_lt_two_pow _ hM
  cases wlun
  · simpa using h
  · simpa using Nat.or_lt_two_pow h hW

/-- C10: `ufshcd_scsi_to_upiu_lun` maps a SCSI LUN to the 8-bit UPIU LUN. For constants
`UFS_UPIU_MAX_UNIT_NUM_ID` and `UFS_UPIU_WLUN_ID` that fit in 8 bits, with the flag not zero
and outside the unit number mask, the result is `(scsi_lun AND UFS_UPIU_MAX_UNIT_NUM_ID) OR
UFS_UPIU_WLUN_ID` for a well known LUN and `scsi_lun AND UFS_UPIU_MAX_UNIT_NUM_ID` otherwise;
that value fits in 8 bits, so the `u8` return type truncates nothing; and the flag
`UFS_UPIU_WLUN_ID` is set in the result exactly when `scsi_is_wlun(scsi_lun)`. -/
theorem ufshcd_scsi_to_upiu_lun_maps (scsi_is_wlun : Nat → Bool)
    (UFS_UPIU_MAX_UNIT_NUM_ID UFS_UPIU_WLUN_ID scsi_lun : Nat)
    (hM : UFS_UPIU_MAX_UNIT_NUM_ID < 2 ^ 8) (hW : UFS_UPIU_WLUN_ID < 2 ^ 8)
    (hW0 : UFS_UPIU_WLUN_ID ≠ 0)
    (hMW : UFS_UPIU_MAX_UNIT_NUM_ID &&& UFS_UPIU_WLUN_ID = 0) :
    ufshcd_scsi_to_upiu_lun scsi_is_wlun UFS_UPIU_MAX_UNIT_NUM_ID UFS_UPIU_WLUN_ID scsi_lun
      = (if scsi_is_wlun scsi_lun then
          (scsi_lun &&& UFS_UPIU_MAX_UNIT_NUM_ID) ||| UFS_UPIU_WLUN_ID
        else scsi_lun &&& UFS_UPIU_MAX_UNIT_NUM_ID) ∧
    (if scsi_is_wlun scsi_lun then
        (scsi_lun &&& UFS_UPIU_MAX_UNIT_NUM_ID) ||| UFS_UPIU_WLUN_ID
      else scsi_lun &&& UFS_UPIU_MAX_UNIT_NUM_ID) < 2 ^ 8 ∧
    ufshcd_scsi_to_upiu_lun scsi_is_wlun UFS_UPIU_MAX_UNIT_NUM_ID UFS_UPIU_WLUN_ID scsi_lun
      < 2 ^ 8 ∧
    (ufshcd_scsi_to_upiu_lun scsi_is_wlun UFS_UPIU_MAX_UNIT_NUM_ID UFS_UPIU_WLUN_ID scsi_lun
        &&& UFS_UPIU_WLUN_ID = UFS_UPIU_WLUN_ID ↔ scsi_is_wlun scsi_lun = true) := by
  have hlt := upiu_lun_value_lt (scsi_is_wlun scsi_lun) UFS_UPIU_MAX_UNIT_NUM_ID
    UFS_UPIU_WLUN_ID scsi_lun hM hW
  have hval : ufshcd_scsi_to_upiu_lun scsi_is_wlun UFS_UPIU_MAX_UNIT_NUM_ID UFS_UPIU_WLUN_ID
      scsi_lun = (if scsi_is_wlun scsi_lun then
          (scsi_lun &&& UFS_UPIU_MAX_UNIT_NUM_ID) ||| UFS_UPIU_WLUN_ID
        else scsi_lun &&& UFS_UPIU_MAX_UNIT_NUM_ID) := by
    unfold ufshcd_scsi_to_upiu_lun
    cases hw : scsi_is_wlun scsi_lun
    · simp only [hw] at hlt
      simpa using Nat.mod_eq_of_lt hlt
    · simp only [hw] at hlt
      simpa using Nat.mod_eq_of_lt hlt
  refine ⟨hval, hlt, hval ▸ hlt, ?_⟩
  rw [hval]
  cases hw : scsi_is_wlun scsi_lun
  · have h0 : scsi_lun &&& UFS_UPIU_MAX_UNIT_NUM_ID &&& UFS_UPIU_WLUN_ID = 0 := by
      rw [Nat.and_assoc, hMW, Nat.and_zero]
    simp only [Bool.false_eq_true, if_false, h0, iff_false]
    exact fun h => hW0 h.symm
  · simp only [if_true, or_flag_and_flag]

/-- Witness of `ufshcd_scsi_to_upiu_lun_maps`: with the kernel's constants (`0x7F`, `0x80`)
and well known LUN test, the UFS device well known LUN `0xc150` maps to `0xD0`. -/
theorem ufshcd_scsi_to_upiu_lun_maps_witness :
    ufshcd_scsi_to_upiu_lun example_scsi_is_wlun 0x7F 0x80 0xc150 = 0xD0 ∧
    (ufshcd_scsi_to_upiu_lun example_scsi_is_wlun 0x7F 0x80 0xc150 &&& 0x80 = 0x80 ↔
      example_scsi_is_wlun 0xc150 = true) :=
  ⟨(ufshcd_scsi_to_upiu_lun_maps example_scsi_is_wlun 0x7F 0x80 0xc150 (by norm_num)
      (by norm_num) (by norm_num) (by decide)).1.trans (by decide),
   (ufshcd_scsi_to_upiu_lun_maps example_scsi_is_wlun 0x7F 0x80 0xc150 (by norm_num)
      (by norm_num) (by norm_num) (by decide)).2.2.2⟩

/-! ### Variant private data -/

/-- C11: for a non-null hba, `ufshcd_get_variant` after `ufshcd_set_variant(hba, v)` returns
`v`; `ufshcd_set_variant` changes `priv` only (putting the old `priv` back gives the old
hba), `ufshcd_get_variant` leaves the hba as it is, and of two `ufshcd_set_variant` calls
the later one wins. -/
theorem ufshcd_variant_round_trip (h : ufs_hba) (v w : Option Nat) :
    (ufshcd_get_variant (ufshcd_set_variant (some h) v)).map Prod.snd = some v ∧
    (∃ h', ufshcd_set_variant (some h) v = some h' ∧ { h' with priv := h.priv } = h) ∧
    ufshcd_get_variant (some h) = some (h, h.priv) ∧
    (ufshcd_get_variant (ufshcd_set_variant (some h) v)).map Prod.fst
      = ufshcd_set_variant (some h) v ∧
    ufshcd_set_variant (ufshcd_set_variant (some h) v) w = ufshcd_set_variant (some h) w ∧
    (ufshcd_get_variant (ufshcd_set_variant (ufshcd_set_variant (some h) v) w)).map Prod.snd
      = some w := by
  refine ⟨rfl, ⟨_, rfl, rfl⟩, rfl, rfl, rfl, rfl⟩

/-! ### Host capabilities -/

/-- Masking with a single bit and testing for non-zero reads that bit. -/
theorem and_bit_ne_zero (n k : Nat) : ((n &&& (1 <<< k)) != 0) = n.testBit k := by
  rw [Nat.one_shiftLeft]
  cases hb : n.testBit k
  · have h0 : n &&& 2 ^ k = 0 := by
      apply Nat.eq_of_testBit_eq
      intro j
      rw [Nat.testBit_and, Nat.testBit_two_pow, Nat.zero_testBit]
      by_cases hkj : k = j
      · subst hkj; simp [hb]
      · simp [hkj]
    simp [h0]
  · have h1 : (n &&& 2 ^ k).testBit k = true := by
      rw [Nat.testBit_and, Nat.testBit_two_pow_self, hb]; rfl
    have h2 : n &&& 2 ^ k ≠ 0 := by
      intro h0
      rw [h0, Nat.zero_testBit] at h1
      exact Bool.false_ne_true h1
    simpa using h2

/-- C12: every host capability predicate reads its own bit of `hba->caps` and nothing else:
`ufshcd_is_clkgating_allowed` bit 0, `ufshcd_can_hibern8_during_gating` bit 1,
`ufshcd_is_clkscaling_supported` (an `int`, non-zero exactly when the bit is set) bit 2,
`ufshcd_can_autobkops_during_suspend` bit 3, `ufshcd_keep_autobkops_enabled_except_suspend`
bit 5, `ufshcd_is_rpm_autosuspend_allowed` bit 6, `ufshcd_is_wb_allowed` bit 8,
`ufshcd_is_power_collapse_during_hibern8_allowed` bit 9 and
`ufshcd_is_hibern8_on_idle_allowed` bit 10; with only its own bit set, a predicate above
bit 0 still returns true. -/
theorem ufshcd_caps_predicates (hba : ufs_hba) :
    ufshcd_is_clkgating_allowed hba = hba.caps.testBit 0 ∧
    ufshcd_can_hibern8_during_gating hba = hba.caps.testBit 1 ∧
    (ufshcd_is_clkscaling_supported hba ≠ 0 ↔ hba.caps.testBit 2 = true) ∧
    ufshcd_can_autobkops_during_suspend hba = hba.caps.testBit 3 ∧
    ufshcd_keep_autobkops_enabled_except_suspend hba = hba.caps.testBit 5 ∧
    ufshcd_is_rpm_autosuspend_allowed hba = hba.caps.testBit 6 ∧
    ufshcd_is_wb_allowed hba = hba.caps.testBit 8 ∧
    ufshcd_is_power_collapse_during_hibern8_allowed hba = hba.caps.testBit 9 ∧
    ufshcd_is_hibern8_on_idle_allowed hba = hba.caps.testBit 10 ∧
    (ufshcd_can_hibern8_during_gating
        { hba with caps := UFSHCD_CAP_HIBERN8_WITH_CLK_GATING } = true ∧
      ufshcd_is_clkscaling_supported { hba with caps := UFSHCD_CAP_CLK_SCALING } = 4 ∧
      ufshcd_can_autobkops_during_suspend
        { hba with caps := UFSHCD_CAP_AUTO_BKOPS_SUSPEND } = true ∧
      ufshcd_keep_autobkops_enabled_except_suspend
        { hba with caps := UFSHCD_CAP_KEEP_AUTO_BKOPS_ENABLED_EXCEPT_SUSPEND } = true ∧
      ufshcd_is_rpm_autosuspend_allowed { hba with caps := UFSHCD_CAP_RPM_AUTOSUSPEND } = true ∧
      ufshcd_is_wb_allowed { hba with caps := UFSHCD_CAP_WB_EN } = true ∧
      ufshcd_is_power_collapse_during_hibern8_allowed
        { hba with caps := UFSHCD_CAP_POWER_COLLAPSE_DURING_HIBERN8 } = true ∧
      ufshcd_is_hibern8_on_idle_allowed
        { hba with caps := UFSHCD_CAP_HIBERN8_ENTER_ON_IDLE } = true) := by
  have bits : ∀ h : ufs_hba,
      ufshcd_is_clkgating_allowed h = h.caps.testBit 0 ∧
      ufshcd_can_hibern8_during_gating h = h.caps.testBit 1 ∧
      (ufshcd_is_clkscaling_supported h ≠ 0 ↔ h.caps.testBit 2 = true) ∧
      ufshcd_can_autobkops_during_suspend h = h.caps.testBit 3 ∧
      ufshcd_keep_autobkops_enabled_except_suspend h = h.caps.testBit 5 ∧
      ufshcd_is_rpm_autosuspend_allowed h = h.caps.testBit 6 ∧
      ufshcd_is_wb_allowed h = h.caps.testBit 8 ∧
      ufshcd_is_power_collapse_during_hibern8_allowed h = h.caps.testBit 9 ∧
      ufshcd_is_hibern8_on_idle_allowed h = h.caps.testBit 10 := by
    intro h
    refine ⟨and_bit_ne_zero _ 0, and_bit_ne_zero _ 1, ?_, and_bit_ne_zero _ 3,
      and_bit_ne_zero _ 5, and_bit_ne_zero _ 6, and_bit_ne_zero _ 8, ?_,
      and_bit_ne_zero _ 10⟩
    · have h2 := and_bit_ne_zero h.caps 2
      unfold ufshcd_is_clkscaling_supported UFSHCD_CAP_CLK_SCALING
      rw [← h2]
      simp
    · unfold ufshcd_is_power_collapse_during_hibern8_allowed
        UFSHCD_CAP_POWER_COLLAPSE_DURING_HIBERN8
      rw [Bool.not_not]
      exact and_bit_ne_zero _ 9
  obtain ⟨h0, h1, h2, h3, h5, h6, h8, h9, h10⟩ := bits hba
  refine ⟨h0, h1, h2, h3, h5, h6, h8, h9, h10, ?_, ?_, ?_, ?_, ?_, ?_, ?_, ?_⟩
  · rw [(bits _).2.1]; dsimp only; decide
  · simp [ufshcd_is_clkscaling_supported, UFSHCD_CAP_CLK_SCALING]
  · rw [(bits _).2.2.2.1]; dsimp only; decide
  · rw [(bits _).2.2.2.2.1]; dsimp only; decide
  · rw [(bits _).2.2.2.2.2.1]; dsimp only; decide
  · rw [(bits _).2.2.2.2.2.2.1]; dsimp only; decide
  · rw [(bits _).2.2.2.2.2.2.2.1]; dsimp only; decide
  · rw [(bits _).2.2.2.2.2.2.2.2]; dsimp only; decide

/-- C19: without `CONFIG_SCSI_UFS_DWC`, `ufshcd_is_intr_aggr_allowed` is true exactly when
the `UFSHCD_CAP_INTR_AGGR` bit (bit 4) of `caps` is set and the
`UFSHCD_QUIRK_BROKEN_INTR_AGGR` bit (bit 0) of `quirks` is clear; so it is a function of
these two bits alone, and it is false whenever the quirk is set. -/
theorem ufshcd_is_intr_aggr_allowed_iff (hba : ufs_hba) :
    ufshcd_is_intr_aggr_allowed false hba = (hba.caps.testBit 4 && !hba.quirks.testBit 0) ∧
    (ufshcd_is_intr_aggr_allowed false hba = true ↔
      (hba.caps &&& UFSHCD_CAP_INTR_AGGR ≠ 0 ∧
        hba.quirks &&& UFSHCD_QUIRK_BROKEN_INTR_AGGR = 0)) ∧
    (hba.quirks &&& UFSHCD_QUIRK_BROKEN_INTR_AGGR ≠ 0 →
      ufshcd_is_intr_aggr_allowed false hba = false) := by
  have hc : ((hba.caps &&& UFSHCD_CAP_INTR_AGGR) != 0) = hba.caps.testBit 4 :=
    and_bit_ne_zero _ 4
  have hq : ((hba.quirks &&& UFSHCD_QUIRK_BROKEN_INTR_AGGR) != 0) = hba.quirks.testBit 0 :=
    and_bit_ne_zero _ 0
  have e : ufshcd_is_intr_aggr_allowed false hba
      = (((hba.caps &&& UFSHCD_CAP_INTR_AGGR) != 0) &&
          !((hba.quirks &&& UFSHCD_QUIRK_BROKEN_INTR_AGGR) != 0)) := by
    unfold ufshcd_is_intr_aggr_allowed
    cases ((hba.caps &&& UFSHCD_CAP_INTR_AGGR) != 0 &&
      !((hba.quirks &&& UFSHCD_QUIRK_BROKEN_INTR_AGGR) != 0)) <;> simp
  refine ⟨by rw [e, hc, hq], ?_, ?_⟩
  · rw [e]; simp
  · intro h; rw [e]; simp [h]

/-- Witness of `ufshcd_is_intr_aggr_allowed_iff`: with every capability granted and the
quirk set, interrupt aggregation is not allowed. -/
theorem ufshcd_is_intr_aggr_allowed_iff_witness :
    ufshcd_is_intr_aggr_allowed false { example_hba with caps := 0xFFFFFFFF, quirks := 0x1 }
      = false :=
  (ufshcd_is_intr_aggr_allowed_iff
    { example_hba with caps := 0xFFFFFFFF, quirks := 0x1 }).2.2 (by decide)

/-! ### Device reset -/

/-- C20: with the `device_reset` hook `f` present, `ufshcd_vops_device_reset(hba)` is one
call of the hook followed, on the hba `f hba` the hook leaves, by: `curr_dev_pwr_mode`
becomes `UFS_ACTIVE_PWR_MODE`; `wb_enabled` and `wb_buf_flush_enabled` become false if
`ufshcd_is_wb_allowed` and stay otherwise; one `ufshcd_update_reg_hist` call with register
value 0 on the `dev_reset` history (0 is stored at `pos`); `uic_link_state`, every other
field and every other history stay as the hook left them. -/
theorem ufshcd_vops_device_reset_present (now : Int) (vt : Nat → ufs_hba_variant_ops)
    (hba : ufs_hba) (p : Nat) (f : ufs_hba → ufs_hba)
    (hp : hba.vops = some p) (hf : (vt p).device_reset = some f) :
    (ufshcd_vops_device_reset now vt hba).curr_dev_pwr_mode = UFS_ACTIVE_PWR_MODE ∧
    ufshcd_is_ufs_dev_active (ufshcd_vops_device_reset now vt hba) = true ∧
    (ufshcd_is_wb_allowed (f hba) = true →
      (ufshcd_vops_device_reset now vt hba).wb_enabled = false ∧
      (ufshcd_vops_device_reset now vt hba).wb_buf_flush_enabled = false) ∧
    (ufshcd_is_wb_allowed (f hba) = false →
      (ufshcd_vops_device_reset now vt hba).wb_enabled = (f hba).wb_enabled ∧
      (ufshcd_vops_device_reset now vt hba).wb_buf_flush_enabled
        = (f hba).wb_buf_flush_enabled) ∧
    (ufshcd_vops_device_reset now vt hba).ufs_stats.dev_reset
      = ufshcd_update_reg_hist now (f hba).ufs_stats.dev_reset 0 ∧
    (ufshcd_vops_device_reset now vt hba).ufs_stats.dev_reset.reg
      = (f hba).ufs_stats.dev_reset.reg.set (f hba).ufs_stats.dev_reset.pos.toNat 0 ∧
    (ufshcd_vops_device_reset now vt hba).uic_link_state = (f hba).uic_link_state ∧
    { ufshcd_vops_device_reset now vt hba with
        curr_dev_pwr_mode := (f hba).curr_dev_pwr_mode
        wb_enabled := (f hba).wb_enabled
        wb_buf_flush_enabled := (f hba).wb_buf_flush_enabled
        ufs_stats := { (ufshcd_vops_device_reset now vt hba).ufs_stats with
          dev_reset := (f hba).ufs_stats.dev_reset } } = f hba := by
  have hk : vops_hook vt hba (fun v => v.device_reset) = some f :=
    vops_hook_of_present (fun v => v.device_reset) hp hf
  have hwb : ∀ h : ufs_hba, ufshcd_is_wb_allowed (ufshcd_set_ufs_dev_active h)
      = ufshcd_is_wb_allowed h := fun _ => rfl
  cases hw : ufshcd_is_wb_allowed (f hba) <;>
    simp only [ufshcd_vops_device_reset, hk, hwb, hw] <;>
    simp [ufshcd_set_ufs_dev_active, ufshcd_is_ufs_dev_active, ufshcd_update_reg_hist]

/-- Witness of `ufshcd_vops_device_reset_present`: the example hba (device asleep,
WriteBooster allowed and on) with the reset table: the device is active and the
WriteBooster off after the reset, the link is where the hook left it, and the hook ran
once. -/
theorem ufshcd_vops_device_reset_present_witness :
    (ufshcd_vops_device_reset 1000 example_reset_vt
      { example_hba with vops := some 7 }).curr_dev_pwr_mode = UFS_ACTIVE_PWR_MODE ∧
    (ufshcd_vops_device_reset 1000 example_reset_vt
      { example_hba with vops := some 7 }).wb_enabled = false ∧
    (ufshcd_vops_device_reset 1000 example_reset_vt
      { example_hba with vops := some 7 }).uic_link_state = UIC_LINK_OFF_STATE ∧
    (ufshcd_vops_device_reset 1000 example_reset_vt
      { example_hba with vops := some 7 }).req_abort_count = 1 :=
  ⟨(ufshcd_vops_device_reset_present 1000 example_reset_vt
      { example_hba with vops := some 7 } 7 example_reset_hook rfl rfl).1,
   ((ufshcd_vops_device_reset_present 1000 example_reset_vt
      { example_hba with vops := some 7 } 7 example_reset_hook rfl rfl).2.2.1 rfl).1,
   (ufshcd_vops_device_reset_present 1000 example_reset_vt
      { example_hba with vops := some 7 } 7 example_reset_hook rfl rfl).2.2.2.2.2.2.1,
   congrArg (fun h => h.req_abort_count)
     (ufshcd_vops_device_reset_present 1000 example_reset_vt
      { example_hba with vops := some 7 } 7 example_reset_hook rfl rfl).2.2.2.2.2.2.2⟩

/-! ### Error history -/

/-- One `ufshcd_update_reg_hist` call on a history whose `pos` is the index `p`. -/
theorem ufshcd_update_reg_hist_at (now : Int) (h : ufs_err_reg_hist) (reg p : Nat)
    (hp : h.pos = (p : Int)) :
    (ufshcd_update_reg_hist now h reg).pos = (((p + 1) % 8 : Nat) : Int) ∧
    (ufshcd_update_reg_hist now h reg).reg = h.reg.set p (reg % 2 ^ 32) ∧
    (ufshcd_update_reg_hist now h reg).tstamp = h.tstamp.set p now := by
  refine ⟨?_, ?_, ?_⟩
  · simp only [ufshcd_update_reg_hist, UFS_ERR_REG_HIST_LENGTH, hp]
    omega
  · simp [ufshcd_update_reg_hist, hp]
  · simp [ufshcd_update_reg_hist, hp]

/-- After the calls `cs` on a history that starts at index `p0`: `pos` has advanced by the
number of calls modulo 8, and each of the last 8 calls, the `j`-th, has its register value
and time stamp at index `(p0 + j) % 8`. -/
theorem reg_hist_appends_at (h0 : ufs_err_reg_hist) (p0 : Nat) (hp : h0.pos = (p0 : Int))
    (hp8 : p0 < 8) (hr : h0.reg.length = 8) (ht : h0.tstamp.length = 8)
    (cs : List (Int × Nat)) :
    (reg_hist_appends h0 cs).pos = (((p0 + cs.length) % 8 : Nat) : Int) ∧
    (reg_hist_appends h0 cs).reg.length = 8 ∧
    (reg_hist_appends h0 cs).tstamp.length = 8 ∧
    ∀ j, j < cs.length → cs.length - j ≤ 8 →
      (reg_hist_appends h0 cs).reg[(p0 + j) % 8]? = (cs[j]?).map (fun c => c.2 % 2 ^ 32) ∧
      (reg_hist_appends h0 cs).tstamp[(p0 + j) % 8]? = (cs[j]?).map (fun c => c.1) := by
  induction cs using List.reverseRecOn with
  | nil =>
    refine ⟨?_, hr, ht, ?_⟩
    · simp [reg_hist_appends, hp, Nat.mod_eq_of_lt hp8]
    · intro j hj; simp at hj
  | append_singleton cs c ih =>
    obtain ⟨ihp, ihr, iht, ihj⟩ := ih
    have hstep : reg_hist_appends h0 (cs ++ [c])
        = ufshcd_update_reg_hist c.1 (reg_hist_appends h0 cs) c.2 := by
      simp [reg_hist_appends, List.foldl_append]
    obtain ⟨e1, e2, e3⟩ := ufshcd_update_reg_hist_at c.1 (reg_hist_appends h0 cs) c.2
      ((p0 + cs.length) % 8) ihp
    rw [hstep, e1, e2, e3]
    have hlt : (p0 + cs.length) % 8 < 8 := Nat.mod_lt _ (by norm_num)
    refine ⟨?_, by simp [ihr], by simp [iht], ?_⟩
    · simp only [List.length_append, List.length_singleton]
      congr 1
      omega
    · intro j hj hj8
      simp only [List.length_append, List.length_singleton] at hj hj8
      by_cases hjn : j = cs.length
      · subst hjn
        rw [List.getElem?_set_self (by omega), List.getElem?_set_self (by omega)]
        simp
      · have hj' : j < cs.length := by omega
        have hne : (p0 + cs.length) % 8 ≠ (p0 + j) % 8 := by omega
        rw [List.getElem?_set_ne hne, List.getElem?_set_ne hne,
          List.getElem?_append_left hj']
        exact ihj j hj' (by omega)

/-- The entries of a history by age, after at least 8 calls from index `p0`: the values
`g` picks from the last 8 calls, given that the `j`-th call is at index `(p0 + j) % 8`. -/
theorem ring_entries_eq_last {α β : Type} (buf : List α) (cs : List β) (g : β → α) (d : α)
    (p0 : Nat) (h8 : 8 ≤ cs.length)
    (hj : ∀ j, j < cs.length → cs.length - j ≤ 8 → buf[(p0 + j) % 8]? = (cs[j]?).map g) :
    (List.range 8).map (fun j => buf.getD (((p0 + cs.length) % 8 + j) % 8) d)
      = (cs.drop (cs.length - 8)).map g := by
  apply List.ext_getElem?
  intro j
  rw [List.getElem?_map, List.getElem?_map, List.getElem?_drop]
  by_cases hj8 : j < 8
  · have hidx : ((p0 + cs.length) % 8 + j) % 8 = (p0 + (cs.length - 8 + j)) % 8 := by omega
    have hlt : cs.length - 8 + j < cs.length := by omega
    rw [List.getElem?_range hj8, Option.map_some', List.getD_eq_getElem?_getD, hidx,
      hj (cs.length - 8 + j) hlt (by omega), List.getElem?_eq_getElem hlt]
    rfl
  · have hge : cs.length ≤ cs.length - 8 + j := by omega
    rw [List.getElem?_eq_none (by simpa using Nat.le_of_not_lt hj8),
      List.getElem?_eq_none hge]
    rfl

/-- C16: an error history is a ring buffer of `UFS_ERR_REG_HIST_LENGTH` = 8 entries. For
every sequence of `ufshcd_update_reg_hist` calls on a history, `pos` stays in [0, 8); a
further call stores its register value and its time stamp at `pos`, leaves the other
entries, and advances `pos` by one modulo 8; and after 8 or more calls the buffer, read by
age, is the list of the last 8 recorded values (and time stamps): everything older has been
overwritten. -/
theorem ufshcd_update_reg_hist_ring (h0 : ufs_err_reg_hist) (hwf : reg_hist_wf h0)
    (calls : List (Int × Nat)) :
    UFS_ERR_REG_HIST_LENGTH = 8 ∧
    reg_hist_wf (reg_hist_appends h0 calls) ∧
    (∀ now reg,
      (ufshcd_update_reg_hist now (reg_hist_appends h0 calls) reg).pos
        = ((reg_hist_appends h0 calls).pos + 1) % 8 ∧
      (ufshcd_update_reg_hist now (reg_hist_appends h0 calls) reg).reg[
        (reg_hist_appends h0 calls).pos.toNat]? = some (reg % 2 ^ 32) ∧
      (ufshcd_update_reg_hist now (reg_hist_appends h0 calls) reg).tstamp[
        (reg_hist_appends h0 calls).pos.toNat]? = some now ∧
      ∀ i, i ≠ (reg_hist_appends h0 calls).pos.toNat →
        (ufshcd_update_reg_hist now (reg_hist_appends h0 calls) reg).reg[i]?
          = (reg_hist_appends h0 calls).reg[i]? ∧
        (ufshcd_update_reg_hist now (reg_hist_appends h0 calls) reg).tstamp[i]?
          = (reg_hist_appends h0 calls).tstamp[i]?) ∧
    (8 ≤ calls.length →
      reg_hist_entries (reg_hist_appends h0 calls)
        = (calls.drop (calls.length - 8)).map (fun c => c.2 % 2 ^ 32) ∧
      reg_hist_tstamps (reg_hist_appends h0 calls)
        = (calls.drop (calls.length - 8)).map (fun c => c.1)) := by
  obtain ⟨h0p, h0p8, h0r, h0t⟩ := hwf
  have hp : h0.pos = ((h0.pos.toNat : Nat) : Int) := (Int.toNat_of_nonneg h0p).symm
  have hp8 : h0.pos.toNat < 8 := by omega
  obtain ⟨ep, er, et, ej⟩ := reg_hist_appends_at h0 h0.pos.toNat hp hp8 h0r h0t calls
  have hq : (reg_hist_appends h0 calls).pos.toNat = (h0.pos.toNat + calls.length) % 8 := by
    rw [ep]; exact Int.toNat_ofNat _
  have hq8 : (h0.pos.toNat + calls.length) % 8 < 8 := Nat.mod_lt _ (by norm_num)
  refine ⟨rfl, ⟨by rw [ep]; omega, by rw [ep]; omega, er, et⟩, ?_, ?_⟩
  · intro now reg
    obtain ⟨e1, e2, e3⟩ := ufshcd_update_reg_hist_at now (reg_hist_appends h0 calls) reg
      ((h0.pos.toNat + calls.length) % 8) ep
    rw [e1, e2, e3, hq]
    refine ⟨by rw [ep]; omega, List.getElem?_set_self (by omega),
      List.getElem?_set_self (by omega), ?_⟩
    intro i hi
    exact ⟨List.getElem?_set_ne (Ne.symm hi), List.getElem?_set_ne (Ne.symm hi)⟩
  · intro h8
    constructor
    · simp only [reg_hist_entries, UFS_ERR_REG_HIST_LENGTH, hq]
      exact ring_entries_eq_last _ calls (fun c => c.2 % 2 ^ 32) 0 h0.pos.toNat h8
        (fun j hj hj8 => (ej j hj hj8).1)
    · simp only [reg_hist_tstamps, UFS_ERR_REG_HIST_LENGTH, hq]
      exact ring_entries_eq_last _ calls (fun c => c.1) 0 h0.pos.toNat h8
        (fun j hj hj8 => (ej j hj hj8).2)

/-- Witness of `ufshcd_update_reg_hist_ring`: after the ten example calls on the empty
history, `pos` is 2 and the buffer holds the values 3 to 10; the values 1 and 2 are gone. -/
theorem ufshcd_update_reg_hist_ring_witness :
    (reg_hist_appends example_hist example_calls).pos = 2 ∧
    reg_hist_entries (reg_hist_appends example_hist example_calls)
      = [3, 4, 5, 6, 7, 8, 9, 10] ∧
    reg_hist_tstamps (reg_hist_appends example_hist example_calls)
      = [102, 103, 104, 105, 106, 107, 108, 109] :=
  ⟨by decide,
   ((ufshcd_update_reg_hist_ring example_hist ⟨by decide, by decide, rfl, rfl⟩
      example_calls).2.2.2 (by decide)).1.trans (by decide),
   ((ufshcd_update_reg_hist_ring example_hist ⟨by decide, by decide, rfl, rfl⟩
      example_calls).2.2.2 (by decide)).2.trans (by decide)⟩

/-! ### Slot manager -/

theorem testBit_bit_clear (nr bits j : Nat) :
    (bit_clear nr bits).testBit j = (bits.testBit j && !decide (nr = j)) := by
  simp only [bit_clear, Nat.one_shiftLeft, Nat.testBit_xor, Nat.testBit_and,
    Nat.testBit_two_pow]
  cases bits.testBit j <;> cases decide (nr = j) <;> rfl

/-- Removing a bit that is not in the set changes nothing. -/
theorem bit_clear_of_not_set (nr bits : Nat) (h : bits.testBit nr = false) :
    bit_clear nr bits = bits := by
  apply Nat.eq_of_testBit_eq
  intro j
  rw [testBit_bit_clear]
  by_cases hj : nr = j
  · subst hj; simp [h]
  · simp [hj]

/-- C14: freeing a slot that is already free is a no-op. A second `free_slot` of the same
slot leaves the hba, and with it the busy set and the outstanding set, as the first one
left it; and `free_slot` of a slot that is not allocated, on an hba whose outstanding slots
are busy, leaves the hba as it was. -/
theorem free_slot_of_free_slot (hba : ufs_hba) (tag : Nat) :
    free_slot (free_slot hba tag) tag = free_slot hba tag ∧
    (slot_inv hba → hba.lrb_in_use.testBit tag = false →
      free_slot hba tag = hba ∧
      (free_slot hba tag).lrb_in_use = hba.lrb_in_use ∧
      (free_slot hba tag).outstanding_reqs = hba.outstanding_reqs) := by
  constructor
  · have h1 : (bit_clear tag hba.lrb_in_use).testBit tag = false := by
      simp [testBit_bit_clear]
    have h2 : (bit_clear tag hba.outstanding_reqs).testBit tag = false := by
      simp [testBit_bit_clear]
    simp [free_slot, bit_clear_of_not_set _ _ h1, bit_clear_of_not_set _ _ h2]
  · intro hinv hfree
    have hout : hba.outstanding_reqs.testBit tag = false := by
      cases ho : hba.outstanding_reqs.testBit tag
      · rfl
      · rw [hinv tag ho] at hfree; exact absurd hfree (by simp)
    simp [free_slot, bit_clear_of_not_set _ _ hfree, bit_clear_of_not_set _ _ hout]

/-- Witness of `free_slot_of_free_slot`: on the example hba, where no slot is allocated,
freeing slot 5 changes nothing. -/
theorem free_slot_of_free_slot_witness :
    free_slot example_hba 5 = example_hba :=
  ((free_slot_of_free_slot example_hba 5).2 (fun i h => by simp [example_hba] at h) rfl).1

/-! ### Clock gating -/

/-- C21: the six DME wrappers are the two primitives with fixed selectors. For every
primitive, hba, `attr_sel` and `mib_val`: `ufshcd_dme_set`, `ufshcd_dme_st_set`,
`ufshcd_dme_peer_set` and `ufshcd_dme_peer_st_set` are `ufshcd_dme_set_attr` with
`(attr_set, peer)` = `(ATTR_SET_NOR, DME_LOCAL)`, `(ATTR_SET_ST, DME_LOCAL)`,
`(ATTR_SET_NOR, DME_PEER)`, `(ATTR_SET_ST, DME_PEER)`, four pairwise distinct pairs, with
`attr_sel` and `mib_val` passed on as they are; `ufshcd_dme_get` and `ufshcd_dme_peer_get`
are `ufshcd_dme_get_attr` with `peer` = `DME_LOCAL` and `DME_PEER`; each wrapper hands back
the primitive's result (and state) as it is. -/
theorem ufshcd_dme_wrappers (ufshcd_dme_set_attr : dme_set_attr_fn)
    (ufshcd_dme_get_attr : dme_get_attr_fn) (hba : ufs_hba) (attr_sel mib_val : Nat) :
    ufshcd_dme_set ufshcd_dme_set_attr hba attr_sel mib_val
      = ufshcd_dme_set_attr hba attr_sel ATTR_SET_NOR mib_val DME_LOCAL ∧
    ufshcd_dme_st_set ufshcd_dme_set_attr hba attr_sel mib_val
      = ufshcd_dme_set_attr hba attr_sel ATTR_SET_ST mib_val DME_LOCAL ∧
    ufshcd_dme_peer_set ufshcd_dme_set_attr hba attr_sel mib_val
      = ufshcd_dme_set_attr hba attr_sel ATTR_SET_NOR mib_val DME_PEER ∧
    ufshcd_dme_peer_st_set ufshcd_dme_set_attr hba attr_sel mib_val
      = ufshcd_dme_set_attr hba attr_sel ATTR_SET_ST mib_val DME_PEER ∧
    ufshcd_dme_get ufshcd_dme_get_attr hba attr_sel mib_val
      = ufshcd_dme_get_attr hba attr_sel mib_val DME_LOCAL ∧
    ufshcd_dme_peer_get ufshcd_dme_get_attr hba attr_sel mib_val
      = ufshcd_dme_get_attr hba attr_sel mib_val DME_PEER ∧
    [(ATTR_SET_NOR, DME_LOCAL), (ATTR_SET_ST, DME_LOCAL), (ATTR_SET_NOR, DME_PEER),
      (ATTR_SET_ST, DME_PEER)].Nodup ∧
    DME_LOCAL ≠ DME_PEER ∧
    ((ufshcd_dme_peer_st_set example_dme_set_attr hba attr_sel mib_val).2 = -110 ∧
      (ufshcd_dme_peer_st_set example_dme_set_attr hba attr_sel mib_val).1.ahit = attr_sel ∧
      (ufshcd_dme_peer_st_set example_dme_set_attr hba attr_sel mib_val).1.eh_flags
        = ATTR_SET_ST ∧
      (ufshcd_dme_peer_st_set example_dme_set_attr hba attr_sel mib_val).1.intr_mask
        = mib_val ∧
      (ufshcd_dme_peer_st_set example_dme_set_attr hba attr_sel mib_val).1.errors = DME_PEER ∧
      (ufshcd_dme_peer_st_set example_dme_set_attr hba attr_sel mib_val).1.req_abort_count
        = hba.req_abort_count + 1) := by
  refine ⟨rfl, rfl, rfl, rfl, rfl, rfl, by decide, by decide, rfl, rfl, rfl, rfl, rfl, rfl⟩

/-! ### Masked register update on a register map -/

/-- Bit `i` of what `ufshcd_rmwl` stores, for arbitrary arguments: within the 32 bits of the
register, the bit of `val` inside the mask and the old bit outside. -/
theorem ufshcd_rmwl_testBit (hba : ufs_hba) (mask val reg i : Nat) :
    ((ufshcd_rmwl hba mask val reg).mmio_base reg).testBit i
      = (decide (i < 32) &&
          (if mask.testBit i then val.testBit i else (hba.mmio_base reg).testBit i)) := by
  have h32 : ∀ n : Nat, n % 2 ^ 32 < 2 ^ 32 := fun n => Nat.mod_lt _ (by norm_num)
  have hw := ufshcd_rmwl_written { hba with mmio_base := fun r => hba.mmio_base r % 2 ^ 32 }
    (mask % 2 ^ 32) (val % 2 ^ 32) reg (hba.mmio_base reg % 2 ^ 32) rfl (h32 _) (h32 _) (h32 _)
  have he : (ufshcd_rmwl hba mask val reg).mmio_base reg
      = (ufshcd_rmwl { hba with mmio_base := fun r => hba.mmio_base r % 2 ^ 32 }
          (mask % 2 ^ 32) (val % 2 ^ 32) reg).mmio_base reg := by
    simp [ufshcd_rmwl, ufshcd_writel, ufshcd_readl]
  rw [he, hw, masked_merge_testBit _ _ _ (h32 _) (h32 _), Nat.testBit_mod_two_pow,
    Nat.testBit_mod_two_pow, Nat.testBit_mod_two_pow]
  by_cases hi : i < 32 <;> simp [hi]

/-- The hba after `ufshcd_rmwl` is the old hba with one register replaced. -/
theorem ufshcd_rmwl_eq_update (hba : ufs_hba) (mask val reg : Nat) :
    ufshcd_rmwl hba mask val reg
      = { hba with
          mmio_base := Function.update hba.mmio_base reg
            ((ufshcd_rmwl hba mask val reg).mmio_base reg) } := by
  simp [ufshcd_rmwl, ufshcd_writel]

/-- The hba after two `ufshcd_rmwl` calls on one register is the old hba with that register
replaced by what the second call stores. -/
theorem ufshcd_rmwl_twice_eq_update (hba : ufs_hba) (m1 v1 m2 v2 reg : Nat) :
    ufshcd_rmwl (ufshcd_rmwl hba m1 v1 reg) m2 v2 reg
      = { hba with
          mmio_base := Function.update hba.mmio_base reg
            ((ufshcd_rmwl (ufshcd_rmwl hba m1 v1 reg) m2 v2 reg).mmio_base reg) } := by
  simp [ufshcd_rmwl, ufshcd_writel]

/-- C22: on the register map, `ufshcd_rmwl(hba, mask, val, reg)` is idempotent and local:
applied twice in a row it leaves the hba, registers included, as one application does; the
contents of every register other than `reg`, and every other field of the hba, are
unchanged; and two calls on the same register with disjoint masks commute. -/
theorem ufshcd_rmwl_idempotent_local (hba : ufs_hba) (mask val reg : Nat) :
    ufshcd_rmwl (ufshcd_rmwl hba mask val reg) mask val reg = ufshcd_rmwl hba mask val reg ∧
    (∀ reg', reg' ≠ reg →
      (ufshcd_rmwl hba mask val reg).mmio_base reg' = hba.mmio_base reg') ∧
    { ufshcd_rmwl hba mask val reg with mmio_base := hba.mmio_base } = hba ∧
    (∀ mask2 val2, mask &&& mask2 = 0 →
      ufshcd_rmwl (ufshcd_rmwl hba mask val reg) mask2 val2 reg
        = ufshcd_rmwl (ufshcd_rmwl hba mask2 val2 reg) mask val reg) := by
  refine ⟨?_, ?_, ?_, ?_⟩
  · have hv : (ufshcd_rmwl (ufshcd_rmwl hba mask val reg) mask val reg).mmio_base reg
        = (ufshcd_rmwl hba mask val reg).mmio_base reg := by
      apply Nat.eq_of_testBit_eq
      intro i
      rw [ufshcd_rmwl_testBit, ufshcd_rmwl_testBit]
      by_cases hi : i < 32 <;> cases mask.testBit i <;> simp [hi]
    refine (ufshcd_rmwl_twice_eq_update hba mask val mask val reg).trans ?_
    rw [hv]
    exact (ufshcd_rmwl_eq_update hba mask val reg).symm
  · intro reg' hne
    simp [ufshcd_rmwl, ufshcd_writel, Function.update_noteq hne]
  · simp [ufshcd_rmwl, ufshcd_writel]
  · intro mask2 val2 hd
    have hv : (ufshcd_rmwl (ufshcd_rmwl hba mask val reg) mask2 val2 reg).mmio_base reg
        = (ufshcd_rmwl (ufshcd_rmwl hba mask2 val2 reg) mask val reg).mmio_base reg := by
      apply Nat.eq_of_testBit_eq
      intro i
      have hdi : (mask.testBit i && mask2.testBit i) = false := by
        rw [← Nat.testBit_and, hd, Nat.zero_testBit]
      rw [ufshcd_rmwl_testBit, ufshcd_rmwl_testBit, ufshcd_rmwl_testBit, ufshcd_rmwl_testBit]
      by_cases hi : i < 32 <;> cases h1 : mask.testBit i <;> cases h2 : mask2.testBit i <;>
        simp_all
    refine (ufshcd_rmwl_twice_eq_update hba mask val mask2 val2 reg).trans ?_
    rw [hv]
    exact (ufshcd_rmwl_twice_eq_update hba mask2 val2 mask val reg).symm

/-- Witness of `ufshcd_rmwl_idempotent_local`: on the register file with `0x12345678` in
register `0x30`, updating the byte under `0xFF00` leaves register `0x34` alone, and the
updates under the disjoint masks `0xFF00` and `0x00FF` commute. -/
theorem ufshcd_rmwl_idempotent_local_witness :
    (ufshcd_rmwl (ufshcd_writel example_hba 0x12345678 0x30) 0xFF00 0xAB00 0x30).mmio_base
        0x34 = (ufshcd_writel example_hba 0x12345678 0x30).mmio_base 0x34 ∧
    ufshcd_rmwl (ufshcd_rmwl (ufshcd_writel example_hba 0x12345678 0x30) 0xFF00 0xAB00 0x30)
        0x00FF 0xCD 0x30
      = ufshcd_rmwl (ufshcd_rmwl (ufshcd_writel example_hba 0x12345678 0x30) 0x00FF 0xCD 0x30)
        0xFF00 0xAB00 0x30 :=
  ⟨(ufshcd_rmwl_idempotent_local (ufshcd_writel example_hba 0x12345678 0x30) 0xFF00 0xAB00
      0x30).2.1 0x34 (by decide),
   (ufshcd_rmwl_idempotent_local (ufshcd_writel example_hba 0x12345678 0x30) 0xFF00 0xAB00
      0x30).2.2.2 0x00FF 0xCD (by decide)⟩

/-! ### Ordinary and well known LUNs -/

/-- The UPIU LUN of an ordinary LUN, when the unit number mask is below `2 ^ 8`: the masked
LUN, with no truncation. -/
theorem upiu_lun_of_ordinary (scsi_is_wlun : Nat → Bool) (M W lun : Nat) (hM : M < 2 ^ 8)
    (hw : scsi_is_wlun lun = false) :
    ufshcd_scsi_to_upiu_lun scsi_is_wlun M W lun = lun &&& M := by
  simp only [ufshcd_scsi_to_upiu_lun, hw, Bool.false_eq_true, if_false]
  exact Nat.mod_eq_of_lt (lt_of_le_of_lt Nat.and_le_right hM)

/-- The UPIU LUN of a well known LUN, when mask and flag are below `2 ^ 8`: the masked LUN
with the flag, with no truncation. -/
theorem upiu_lun_of_wlun (scsi_is_wlun : Nat → Bool) (M W lun : Nat) (hM : M < 2 ^ 8)
    (hW : W < 2 ^ 8) (hw : scsi_is_wlun lun = true) :
    ufshcd_scsi_to_upiu_lun scsi_is_wlun M W lun = (lun &&& M) ||| W := by
  simp only [ufshcd_scsi_to_upiu_lun, hw, if_true]
  exact Nat.mod_eq_of_lt (Nat.or_lt_two_pow (lt_of_le_of_lt Nat.and_le_right hM) hW)

/-- C23: `ufshcd_scsi_to_upiu_lun` separates ordinary and well known LUNs. For a unit number
mask `UFS_UPIU_MAX_UNIT_NUM_ID` of the form `2 ^ k - 1` that lies below the flag
`UFS_UPIU_WLUN_ID`, itself below `2 ^ 8`: an ordinary LUN that is at most the mask is mapped
to itself; the result for an ordinary LUN is at most the mask and the result for a well
known LUN is at least the flag, so an ordinary and a well known LUN never map to the same
UPIU LUN; and the mapping is injective on the ordinary LUNs in [0, mask]. -/
theorem ufshcd_scsi_to_upiu_lun_separates (scsi_is_wlun : Nat → Bool)
    (UFS_UPIU_MAX_UNIT_NUM_ID UFS_UPIU_WLUN_ID k : Nat)
    (hk : UFS_UPIU_MAX_UNIT_NUM_ID + 1 = 2 ^ k)
    (hMW : UFS_UPIU_MAX_UNIT_NUM_ID < UFS_UPIU_WLUN_ID)
    (hW : UFS_UPIU_WLUN_ID < 2 ^ 8) :
    (∀ scsi_lun, scsi_is_wlun scsi_lun = false → scsi_lun ≤ UFS_UPIU_MAX_UNIT_NUM_ID →
      ufshcd_scsi_to_upiu_lun scsi_is_wlun UFS_UPIU_MAX_UNIT_NUM_ID UFS_UPIU_WLUN_ID scsi_lun
        = scsi_lun) ∧
    (∀ scsi_lun, scsi_is_wlun scsi_lun = false →
      ufshcd_scsi_to_upiu_lun scsi_is_wlun UFS_UPIU_MAX_UNIT_NUM_ID UFS_UPIU_WLUN_ID scsi_lun
        ≤ UFS_UPIU_MAX_UNIT_NUM_ID) ∧
    (∀ scsi_lun, scsi_is_wlun scsi_lun = true →
      UFS_UPIU_WLUN_ID ≤ ufshcd_scsi_to_upiu_lun scsi_is_wlun UFS_UPIU_MAX_UNIT_NUM_ID
        UFS_UPIU_WLUN_ID scsi_lun) ∧
    (∀ a b, scsi_is_wlun a = false → scsi_is_wlun b = true →
      ufshcd_scsi_to_upiu_lun scsi_is_wlun UFS_UPIU_MAX_UNIT_NUM_ID UFS_UPIU_WLUN_ID a
        ≠ ufshcd_scsi_to_upiu_lun scsi_is_wlun UFS_UPIU_MAX_UNIT_NUM_ID UFS_UPIU_WLUN_ID b) ∧
    (∀ a b, scsi_is_wlun a = false → scsi_is_wlun b = false →
      a ≤ UFS_UPIU_MAX_UNIT_NUM_ID → b ≤ UFS_UPIU_MAX_UNIT_NUM_ID →
      ufshcd_scsi_to_upiu_lun scsi_is_wlun UFS_UPIU_MAX_UNIT_NUM_ID UFS_UPIU_WLUN_ID a
        = ufshcd_scsi_to_upiu_lun scsi_is_wlun UFS_UPIU_MAX_UNIT_NUM_ID UFS_UPIU_WLUN_ID b →
      a = b) := by
  have hM : UFS_UPIU_MAX_UNIT_NUM_ID < 2 ^ 8 := lt_trans hMW hW
  have hMk : UFS_UPIU_MAX_UNIT_NUM_ID = 2 ^ k - 1 := by omega
  have hid : ∀ lun, scsi_is_wlun lun = false → lun ≤ UFS_UPIU_MAX_UNIT_NUM_ID →
      ufshcd_scsi_to_upiu_lun scsi_is_wlun UFS_UPIU_MAX_UNIT_NUM_ID UFS_UPIU_WLUN_ID lun
        = lun := by
    intro lun hw hle
    rw [upiu_lun_of_ordinary scsi_is_wlun _ _ lun hM hw, hMk,
      Nat.and_pow_two_sub_one_eq_mod]
    exact Nat.mod_eq_of_lt (by omega)
  have hord : ∀ lun, scsi_is_wlun lun = false →
      ufshcd_scsi_to_upiu_lun scsi_is_wlun UFS_UPIU_MAX_UNIT_NUM_ID UFS_UPIU_WLUN_ID lun
        ≤ UFS_UPIU_MAX_UNIT_NUM_ID := by
    intro lun hw
    rw [upiu_lun_of_ordinary scsi_is_wlun _ _ lun hM hw]
    exact Nat.and_le_right
  have hwl : ∀ lun, scsi_is_wlun lun = true →
      UFS_UPIU_WLUN_ID ≤ ufshcd_scsi_to_upiu_lun scsi_is_wlun UFS_UPIU_MAX_UNIT_NUM_ID
        UFS_UPIU_WLUN_ID lun := by
    intro lun hw
    rw [upiu_lun_of_wlun scsi_is_wlun _ _ lun hM hW hw]
    calc UFS_UPIU_WLUN_ID
        = ((lun &&& UFS_UPIU_MAX_UNIT_NUM_ID) ||| UFS_UPIU_WLUN_ID) &&& UFS_UPIU_WLUN_ID :=
          (or_flag_and_flag _ _).symm
      _ ≤ (lun &&& UFS_UPIU_MAX_UNIT_NUM_ID) ||| UFS_UPIU_WLUN_ID := Nat.and_le_left
  refine ⟨hid, hord, hwl, ?_, ?_⟩
  · intro a b ha hb heq
    have h1 := hord a ha
    have h2 := hwl b hb
    omega
  · intro a b ha hb hal hbl heq
    rw [hid a ha hal, hid b hb hbl] at heq
    exact heq

/-- Witness of `ufshcd_scsi_to_upiu_lun_separates`: with the kernel's constants (`0x7F` =
`2 ^ 7 - 1` and `0x80`) and well known LUN test, the ordinary LUN 5 maps to 5 and the well
known LUN `0xc150` to a value of at least `0x80`, so the two differ. -/
theorem ufshcd_scsi_to_upiu_lun_separates_witness :
    ufshcd_scsi_to_upiu_lun example_scsi_is_wlun 0x7F 0x80 5 = 5 ∧
    0x80 ≤ ufshcd_scsi_to_upiu_lun example_scsi_is_wlun 0x7F 0x80 0xc150 ∧
    ufshcd_scsi_to_upiu_lun example_scsi_is_wlun 0x7F 0x80 5
      ≠ ufshcd_scsi_to_upiu_lun example_scsi_is_wlun 0x7F 0x80 0xc150 :=
  ⟨(ufshcd_scsi_to_upiu_lun_separates example_scsi_is_wlun 0x7F 0x80 7 (by norm_num)
      (by norm_num) (by norm_num)).1 5 (by decide) (by norm_num),
   (ufshcd_scsi_to_upiu_lun_separates example_scsi_is_wlun 0x7F 0x80 7 (by norm_num)
      (by norm_num) (by norm_num)).2.2.1 0xc150 (by decide),
   (ufshcd_scsi_to_upiu_lun_separates example_scsi_is_wlun 0x7F 0x80 7 (by norm_num)
      (by norm_num) (by norm_num)).2.2.2.1 5 0xc150 (by decide) (by decide)⟩

end Ufshcd
